import Mathlib

set_option maxRecDepth 100000

/-!
# Verification of the EllipticCurves library

A shallow embedding of the library's core: the 256-bit modular arithmetic
engine (`add_mod`, `sub_mod`, `mul_mod`, `exp_mod`, `div_mod` from
`src/ru256.rs`), affine and Jacobian point arithmetic
(`src/ecmaths/affine.rs`, `src/ecmaths/jacobian.rs`), the curve parameter
catalog (`src/curves/k1.rs`, `src/curves/r1.rs`) and the ECDSA protocol
(`src/signature.rs`).

Machine integers (the Rust `U256` wrapped by `RU256`) are modelled as `Nat`
with explicit wrap-around at `2 ^ 256` where the source can overflow.
Rust code that can panic (failed `assert`, `checked_*` arithmetic,
`expect`) is additionally modelled by `Option`-valued mirrors (suffix `C`),
where `none` means the call panics; the plain definitions give the value
computed on the non-panicking paths.

A second family of definitions (suffix `F`, plus `powMod`) computes the
same functions by direct modular arithmetic instead of the source's
bit-by-bit ladders; the equivalence is proved (`mul_mod_eq`, `exp_mod_eq`,
...) and the `F` family is only used to evaluate the model on concrete
inputs without deep kernel recursion.
-/

/-- `2 ^ 256`, the wrap-around modulus of the Rust `U256` type. -/
def U256size : Nat := 2 ^ 256

/-! ## Modular arithmetic engine (`src/ru256.rs`) -/

/-- `RU256::add_mod`: operands are first reduced mod `p`
(`checked_rem`), added with `overflowing_add`, and on overflow the wrapped
sum is corrected by adding `U256::MAX - p + 1 = 2^256 - p`; the result is
reduced once more. -/
def add_mod (a b p : Nat) : Nat :=
  let x1 := a % p
  let x2 := b % p
  let s := x1 + x2
  (if s < U256size then s else s - U256size + (U256size - p)) % p

/-- `RU256::sub_mod`: `a mod p` plus the additive inverse `p - (b mod p)`. -/
def sub_mod (a b p : Nat) : Nat :=
  add_mod (a % p) (p - b % p) p

/-- One iteration of the `mul_mod` add-and-double ladder: state is
`(base, on)`; the accumulator is doubled once the first set bit has been
seen, and `adder` is added in on every set bit. -/
def mul_step (adder p : Nat) (st : Nat × Bool) (d : Bool) : Nat × Bool :=
  let base := if st.2 then add_mod st.1 st.1 p else st.1
  if d then (add_mod base adder p, true) else (base, st.2)

/-- The `mul_mod` ladder over the 256 bits of `k` (most significant
first), as produced by `bytes_to_binary` on the 32-byte big-endian
representation; `fuel` counts the bits still to process, so bit
`fuel - 1` is processed next. -/
def mul_loop (adder p k : Nat) : Nat → (Nat × Bool) → Nat × Bool
  | 0, st => st
  | f + 1, st => mul_loop adder p k f (mul_step adder p st (k.testBit f))

/-- `RU256::mul_mod`: both operands are reduced mod `p`, the smaller one
becomes the bit sequence `seq` and the larger one the `adder` of an
add-and-double ladder. -/
def mul_mod (a b p : Nat) : Nat :=
  let x1 := a % p
  let x2 := b % p
  let seq := if x1 < x2 then x1 else x2
  let adder := if x1 < x2 then x2 else x1
  (mul_loop adder p seq 256 (0, false)).1

/-- One iteration of the `exp_mod` square-and-multiply ladder. -/
def exp_step (multiplier p : Nat) (st : Nat × Bool) (d : Bool) : Nat × Bool :=
  let base := if st.2 then mul_mod st.1 st.1 p else st.1
  if d then (mul_mod base multiplier p, true) else (base, st.2)

/-- The `exp_mod` ladder over the 256 bits of the exponent `e`, most
significant bit first. -/
def exp_loop (multiplier p e : Nat) : Nat → (Nat × Bool) → Nat × Bool
  | 0, st => st
  | f + 1, st => exp_loop multiplier p e f (exp_step multiplier p st (e.testBit f))

/-- `RU256::exp_mod`: square-and-multiply with the base reduced mod `p`;
the exponent is used as given (only its low 256 bits exist in `U256`). -/
def exp_mod (a e p : Nat) : Nat :=
  (exp_loop (a % p) p e 256 (1, false)).1

/-- `RU256::div_mod`: Fermat inverse, `a * b^(p-2) mod p`.  (The Rust
function first asserts `p - 2 > 0`; that check lives in `div_modC`.) -/
def div_mod (a b p : Nat) : Nat :=
  mul_mod a (exp_mod b (p - 2) p) p

/-! ## Panic-aware mirrors of the arithmetic engine

`none` models a Rust panic: a failed `checked_rem` (modulus 0), a failed
`checked_add`/`checked_sub` (`U256` overflow), or a failed `assert`. -/

/-- `RU256::add_mod` with its panic paths: `checked_rem` fails when
`p = 0`, and the overflow correction `x3 + (2^256 - p)` is a
`checked_add` that fails if the sum no longer fits in 256 bits. -/
def add_modC (a b p : Nat) : Option Nat :=
  if p = 0 then none else
  let x1 := a % p
  let x2 := b % p
  let s := x1 + x2
  if s < U256size then some (s % p)
  else if s - U256size + (U256size - p) < U256size then
    some ((s - U256size + (U256size - p)) % p)
  else none

/-- `RU256::sub_mod` with its panic paths. -/
def sub_modC (a b p : Nat) : Option Nat :=
  if p = 0 then none else add_modC (a % p) (p - b % p) p

/-- `mul_step` with panics propagated. -/
def mul_stepC (adder p : Nat) (st : Nat × Bool) (d : Bool) : Option (Nat × Bool) :=
  Option.bind (if st.2 then add_modC st.1 st.1 p else some st.1) fun base =>
  if d then Option.bind (add_modC base adder p) fun b2 => some (b2, true)
  else some (base, st.2)

/-- `mul_loop` with panics propagated. -/
def mul_loopC (adder p k : Nat) : Nat → (Nat × Bool) → Option (Nat × Bool)
  | 0, st => some st
  | f + 1, st => Option.bind (mul_stepC adder p st (k.testBit f)) (mul_loopC adder p k f)

/-- `RU256::mul_mod` with its panic paths. -/
def mul_modC (a b p : Nat) : Option Nat :=
  if p = 0 then none else
  let x1 := a % p
  let x2 := b % p
  let seq := if x1 < x2 then x1 else x2
  let adder := if x1 < x2 then x2 else x1
  Option.bind (mul_loopC adder p seq 256 (0, false)) fun st => some st.1

/-- `exp_step` with panics propagated. -/
def exp_stepC (multiplier p : Nat) (st : Nat × Bool) (d : Bool) : Option (Nat × Bool) :=
  Option.bind (if st.2 then mul_modC st.1 st.1 p else some st.1) fun base =>
  if d then Option.bind (mul_modC base multiplier p) fun b2 => some (b2, true)
  else some (base, st.2)

/-- `exp_loop` with panics propagated. -/
def exp_loopC (multiplier p e : Nat) : Nat → (Nat × Bool) → Option (Nat × Bool)
  | 0, st => some st
  | f + 1, st => Option.bind (exp_stepC multiplier p st (e.testBit f)) (exp_loopC multiplier p e f)

/-- `RU256::exp_mod` with its panic paths. -/
def exp_modC (a e p : Nat) : Option Nat :=
  if p = 0 then none else
  Option.bind (exp_loopC (a % p) p e 256 (1, false)) fun st => some st.1

/-- `RU256::div_mod` with its panic paths: `assert!(p - 2 > 0)` fails for
`p = 2` and the `U256` subtraction `p - 2` itself underflows for `p < 2`,
so every `p ≤ 2` panics. -/
def div_modC (a b p : Nat) : Option Nat :=
  if p ≤ 2 then none else
  Option.bind (exp_modC b (p - 2) p) fun inv => mul_modC a inv p

/-! ## Fast evaluation layer for the field operations -/

/-- Square-and-multiply by halving the exponent; `fuel` bounds the
recursion depth.  Used only to evaluate `exp_mod` efficiently. -/
def powModAux (p : Nat) : Nat → Nat → Nat → Nat
  | 0, _, _ => 1 % p
  | f + 1, a, e =>
    if e = 0 then 1 % p
    else
      let r := powModAux p f (a * a % p) (e / 2)
      if e % 2 = 1 then a * r % p else r

/-- Fast modular exponentiation, equal to `(a % p) ^ e % p`. -/
def powMod (a e p : Nat) : Nat := powModAux p 256 (a % p) e

/-- Fast form of `add_mod`. -/
def addF (a b p : Nat) : Nat := (a + b) % p

/-- Fast form of `sub_mod`. -/
def subF (a b p : Nat) : Nat := (a % p + (p - b % p)) % p

/-- Fast form of `mul_mod`. -/
def mulF (a b p : Nat) : Nat := a * b % p

/-- Fast form of `exp_mod` (for exponents below `2 ^ 256`). -/
def expF (a e p : Nat) : Nat := powMod a e p

/-- Fast form of `div_mod`. -/
def divF (a b p : Nat) : Nat := a * powMod b (p - 2) p % p

/-! ## Points and curve parameters -/

/-- `ECAffinePoint` (`src/ecmaths/affine.rs`): a pair of field elements;
`(0, 0)` doubles as the identity sentinel. -/
structure ECAffinePoint where
  x : Nat
  y : Nat
deriving DecidableEq, Repr

/-- `JacobianPoint` (`src/ecmaths/jacobian.rs`). -/
structure JacobianPoint where
  x : Nat
  y : Nat
  z : Nat
deriving DecidableEq, Repr

/-- The `SECP256` trait (`src/curves/mod.rs`) as a record of curve
parameters. -/
structure SECP256 where
  p : Nat
  g : ECAffinePoint
  n : Nat
  a : Nat
  b : Nat
  n_div_2 : Nat
  sqrt_exp_num : Nat

/-- secp256k1 parameters (`src/curves/k1.rs`); `sqrt_exp_num` is
`(p + 1) / 4` as computed by `K1::sqrt_exp_num`. -/
def K1 : SECP256 where
  p := 0xFFFFFFFFFFFFFFFFFFFFFFFFFFFFFFFFFFFFFFFFFFFFFFFFFFFFFFFEFFFFFC2F
  g := { x := 0x79BE667EF9DCBBAC55A06295CE870B07029BFCDB2DCE28D959F2815B16F81798
         y := 0x483ADA7726A3C4655DA4FBFC0E1108A8FD17B448A68554199C47D08FFB10D4B8 }
  n := 0xFFFFFFFFFFFFFFFFFFFFFFFFFFFFFFFEBAAEDCE6AF48A03BBFD25E8CD0364141
  a := 0
  b := 7
  n_div_2 := 0x7fffffffffffffffffffffffffffffff5d576e7357a4501ddfe92f46681b20a0
  sqrt_exp_num :=
    (0xFFFFFFFFFFFFFFFFFFFFFFFFFFFFFFFFFFFFFFFFFFFFFFFFFFFFFFFEFFFFFC2F + 1) / 4

/-- secp256r1 parameters (`src/curves/r1.rs`). -/
def R1 : SECP256 where
  p := 0xFFFFFFFF00000001000000000000000000000000FFFFFFFFFFFFFFFFFFFFFFFF
  g := { x := 0x6B17D1F2E12C4247F8BCE6E563A440F277037D812DEB33A0F4A13945D898C296
         y := 0x4FE342E2FE1A7F9B8EE7EB4A7C0F9E162BCE33576B315ECECBB6406837BF51F5 }
  n := 0xFFFFFFFF00000000FFFFFFFFFFFFFFFFBCE6FAADA7179E84F3B9CAC2FC632551
  a := 0xFFFFFFFF00000001000000000000000000000000FFFFFFFFFFFFFFFFFFFFFFFC
  b := 0x5AC635D8AA3A93E7B3EBBD55769886BC651D06B0CC53B0F63BCE3C3E27D2604B
  n_div_2 := 0x7fffffff800000007fffffffffffffffde737d56d38bcf4279dce5617e3192a8
  sqrt_exp_num :=
    (0xFFFFFFFF00000001000000000000000000000000FFFFFFFFFFFFFFFFFFFFFFFF + 1) / 4

/-- The well-formedness facts about a curve record that the proofs below
use; they hold for `K1` and `R1` by computation. -/
abbrev GoodCurve (c : SECP256) : Prop :=
  2 < c.p ∧ c.p < U256size ∧ 2 < c.n ∧ c.n < U256size

/-! ## Affine point arithmetic (`src/ecmaths/affine.rs`) -/

/-- `ECAffinePoint::is_zero_point`. -/
def ECAffinePoint.is_zero_point (s : ECAffinePoint) : Bool :=
  s.x = 0 && s.y = 0

/-- `ECAffinePoint::zero_point`, the `(0, 0)` identity sentinel. -/
def ECAffinePoint.zero_point : ECAffinePoint := { x := 0, y := 0 }

/-- `ECAffinePoint::add`.  The Rust function `assert!`s `self.y != other.y`
first; on the non-panicking paths it returns the other operand when one is
the sentinel, else applies the chord formula. -/
def ECAffinePoint.add (c : SECP256) (s o : ECAffinePoint) : ECAffinePoint :=
  if s.is_zero_point then o else
  if o.is_zero_point then s else
  let p := c.p
  let slope := div_mod (sub_mod s.y o.y p) (sub_mod s.x o.x p) p
  let x := sub_mod (sub_mod (mul_mod slope slope p) s.x p) o.x p
  let y := sub_mod (mul_mod slope (sub_mod s.x x p) p) s.y p
  { x := x, y := y }

/-- `ECAffinePoint::double`. -/
def ECAffinePoint.double (c : SECP256) (s : ECAffinePoint) : ECAffinePoint :=
  if s.is_zero_point then ECAffinePoint.zero_point else
  if s.y = 0 then ECAffinePoint.zero_point else
  let p := c.p
  let slope := div_mod (add_mod (mul_mod (exp_mod s.x 2 p) 3 p) c.a p)
                       (mul_mod s.y 2 p) p
  let x := sub_mod (sub_mod (mul_mod slope slope p) s.x p) s.x p
  let y := sub_mod (mul_mod slope (sub_mod s.x x p) p) s.y p
  { x := x, y := y }

/-- The double-and-add loop of `ECAffinePoint::multiply` (`i` runs from
255 down to 0; `fuel` is the number of iterations left, so the iteration
with `fuel = f + 1` reads bit `f`). -/
def af_mul_loop (c : SECP256) (s : ECAffinePoint) (k : Nat) :
    Nat → ECAffinePoint → ECAffinePoint
  | 0, r => r
  | f + 1, r =>
    let r2 := r.double c
    af_mul_loop c s k f (if k.testBit f then r2.add c s else r2)

/-- `ECAffinePoint::multiply`. -/
def ECAffinePoint.multiply (c : SECP256) (s : ECAffinePoint) (k : Nat) : ECAffinePoint :=
  if s.y = 0 || k = 0 then ECAffinePoint.zero_point else
  if k = 1 then s else
  af_mul_loop c s k 256 ECAffinePoint.zero_point

/-! ## Jacobian point arithmetic (`src/ecmaths/jacobian.rs`) -/

/-- `ECAffinePoint::to_jacobian`. -/
def ECAffinePoint.to_jacobian (s : ECAffinePoint) : JacobianPoint :=
  { x := s.x, y := s.y, z := 1 }

/-- `JacobianPoint::is_zero_point`. -/
def JacobianPoint.is_zero_point (s : JacobianPoint) : Bool :=
  s.x = 0 && s.y = 0

/-- `JacobianPoint::zero_point`. -/
def JacobianPoint.zero_point : JacobianPoint := { x := 0, y := 0, z := 1 }

/-- `JacobianPoint::double`. -/
def JacobianPoint.double (c : SECP256) (s : JacobianPoint) : JacobianPoint :=
  if s.is_zero_point then JacobianPoint.zero_point else
  let p := c.p
  let ysq := mul_mod s.y s.y p
  let sq := mul_mod (mul_mod s.x 4 p) ysq p
  let m := add_mod (mul_mod (mul_mod s.x s.x p) 3 p)
                   (mul_mod (exp_mod s.z 4 p) c.a p) p
  let x := sub_mod (mul_mod m m p) (mul_mod 2 sq p) p
  let y := sub_mod (mul_mod m (sub_mod sq x p) p) (mul_mod 8 (mul_mod ysq ysq p) p) p
  let z := mul_mod (mul_mod s.y 2 p) s.z p
  { x := x, y := y, z := z }

/-- `JacobianPoint::add`. -/
def JacobianPoint.add (c : SECP256) (s o : JacobianPoint) : JacobianPoint :=
  if s.is_zero_point then o else
  if o.is_zero_point then s else
  let p := c.p
  let z1z1 := mul_mod s.z s.z p
  let z2z2 := mul_mod o.z o.z p
  let u1 := mul_mod s.x z2z2 p
  let u2 := mul_mod o.x z1z1 p
  let s1 := mul_mod s.y (mul_mod o.z z2z2 p) p
  let s2 := mul_mod o.y (mul_mod s.z z1z1 p) p
  if u1 = u2 then
    (if s1 ≠ s2 then JacobianPoint.zero_point else s.double c)
  else
  let h := sub_mod u2 u1 p
  let h2 := mul_mod h h p
  let h3 := mul_mod h2 h p
  let r := sub_mod s2 s1 p
  let v := mul_mod u1 h2 p
  let x := sub_mod (sub_mod (mul_mod r r p) h3 p) (mul_mod v 2 p) p
  let y := sub_mod (mul_mod r (sub_mod v x p) p) (mul_mod s1 h3 p) p
  let z := mul_mod (mul_mod h s.z p) o.z p
  { x := x, y := y, z := z }

/-- The double-and-add loop of `JacobianPoint::multiply`. -/
def jac_mul_loop (c : SECP256) (s : JacobianPoint) (k : Nat) :
    Nat → JacobianPoint → JacobianPoint
  | 0, r => r
  | f + 1, r =>
    let r2 := r.double c
    jac_mul_loop c s k f (if k.testBit f then r2.add c s else r2)

/-- `JacobianPoint::multiply`. -/
def JacobianPoint.multiply (c : SECP256) (s : JacobianPoint) (k : Nat) : JacobianPoint :=
  if s.y = 0 || k = 0 then JacobianPoint.zero_point else
  if k = 1 then s else
  jac_mul_loop c s k 256 JacobianPoint.zero_point

/-- `JacobianPoint::from_jacobian`: one inversion of `z`, then
`x / z^2` and `y / z^3`. -/
def JacobianPoint.from_jacobian (c : SECP256) (s : JacobianPoint) : ECAffinePoint :=
  let p := c.p
  let z := div_mod 1 s.z p
  let zz := mul_mod z z p
  { x := mul_mod s.x zz p, y := mul_mod s.y (mul_mod zz z p) p }

/-! ## ECDSA protocol (`src/signature.rs`) -/

/-- `Signature`: `r`, `s` and the recovery indicator `v`. -/
structure Signature where
  r : Nat
  s : Nat
  v : Nat
deriving DecidableEq, Repr

/-- `PrivateKey::to_pub_key`: `privateKey · G` via the Jacobian ladder. -/
def to_pub_key (c : SECP256) (priv : Nat) : ECAffinePoint :=
  ((c.g.to_jacobian).multiply c priv).from_jacobian c

/-- `PrivateKey::raw_sign`. -/
def raw_sign (c : SECP256) (priv msg_hash nonce : Nat) : Signature :=
  let n := c.n
  let encoded_nonce := ((c.g.to_jacobian).multiply c nonce).from_jacobian c
  let r := encoded_nonce.x
  let s := div_mod (add_mod msg_hash (mul_mod r priv n) n) nonce n
  if s ≤ c.n_div_2 then
    { r := r, s := s, v := if encoded_nonce.y % 2 = 0 then 27 else add_mod 27 1 n }
  else
    { r := r, s := sub_mod n s n,
      v := if encoded_nonce.y % 2 = 0 then add_mod 27 1 n else 27 }

/-- `Signature::raw_verify`. -/
def Signature.raw_verify (c : SECP256) (sig : Signature) (msg_hash : Nat)
    (pub_key : ECAffinePoint) : Bool :=
  let n := c.n
  let pa := (c.g.to_jacobian).multiply c (div_mod msg_hash sig.s n)
  let pb := (pub_key.to_jacobian).multiply c (div_mod sig.r sig.s n)
  let pc := pa.add c pb
  (pc.from_jacobian c).x == sig.r

/-- The value `r^3 + a*r + b mod p` computed by `Signature::raw_recover`
to test whether `r` is a valid curve abscissa. -/
def recover_rhs (c : SECP256) (r : Nat) : Nat :=
  add_mod (add_mod (exp_mod r 3 c.p) (mul_mod c.a r c.p) c.p) c.b c.p

/-- The candidate ordinate selected by `Signature::raw_recover`: the
square root `rhs^((p+1)/4)` or its negation, picked by comparing the
parity of `v` with the parity of the candidate. -/
def recover_y (c : SECP256) (r v : Nat) : Nat :=
  let possible_y := exp_mod (recover_rhs c r) c.sqrt_exp_num c.p
  if (v % 2 = 1) ≠ (possible_y % 2 = 1) then possible_y
  else sub_mod c.p possible_y c.p

/-! ## Correctness of the fast layer

The ladder implementations are never evaluated directly (their
lazily-built state chains would require very deep reductions); instead
each is proved equal, for moduli below `2 ^ 256`, to the corresponding
direct-arithmetic function, and concrete values are always computed on
the fast side. -/

theorem add_mod_eq {p : Nat} (hp : p ≤ U256size) (a b : Nat) :
    add_mod a b p = (a + b) % p := by
  unfold add_mod
  by_cases h : a % p + b % p < U256size
  · simp only [h, if_true]
    exact (Nat.add_mod a b p).symm
  · simp only [h, if_false]
    push_neg at h
    have hs : a % p + b % p - U256size + (U256size - p) = a % p + b % p - p := by
      omega
    rw [hs]
    have hps : p ≤ a % p + b % p := le_trans hp h
    calc (a % p + b % p - p) % p
        = (a % p + b % p - p + p) % p := (Nat.add_mod_right _ p).symm
      _ = (a % p + b % p) % p := by rw [Nat.sub_add_cancel hps]
      _ = (a + b) % p := (Nat.add_mod a b p).symm

theorem add_mod_lt {p : Nat} (hp : 0 < p) (a b : Nat) : add_mod a b p < p :=
  Nat.mod_lt _ hp

theorem add_mod_reduce (a b p : Nat) : add_mod a b p = add_mod (a % p) (b % p) p := by
  unfold add_mod
  rw [Nat.mod_mod_of_dvd, Nat.mod_mod_of_dvd] <;> simp

theorem sub_mod_eq {p : Nat} (hp : p ≤ U256size) (a b : Nat) :
    sub_mod a b p = subF a b p := by
  unfold sub_mod subF
  rw [add_mod_eq hp]

theorem sub_mod_lt {p : Nat} (hp : 0 < p) (a b : Nat) : sub_mod a b p < p :=
  add_mod_lt hp _ _

/-- Congruence helper: the first factor of a product may be reduced. -/
theorem mod_mul_add_mod (p x t y : Nat) : (x % p * t + y) % p = (x * t + y) % p :=
  Nat.ModEq.add_right y (Nat.ModEq.mul_right t (x.mod_modEq p))

/-- Congruence helper: the base of a power may be reduced. -/
theorem mod_pow_mul_mod (p x t y : Nat) : (x % p) ^ t * y % p = x ^ t * y % p :=
  Nat.ModEq.mul_right y (Nat.ModEq.pow t (x.mod_modEq p))

/-- The low `f + 1` bits of `k` split into bit `f` and the low `f` bits. -/
theorem mod_pow_succ_testBit (k f : Nat) :
    k % 2 ^ (f + 1) = (if k.testBit f then 2 ^ f else 0) + k % 2 ^ f := by
  rw [Nat.mod_pow_succ, Nat.testBit_to_div_mod]
  rcases Nat.mod_two_eq_zero_or_one (k / 2 ^ f) with h | h <;>
    simp [h, Nat.add_comm]

theorem mul_loop_succ (adder p k f : Nat) (st : Nat × Bool) :
    mul_loop adder p k (f + 1) st =
      mul_loop adder p k f (mul_step adder p st (k.testBit f)) := rfl

theorem mul_step_tt (adder p b : Nat) :
    mul_step adder p (b, true) true = (add_mod (add_mod b b p) adder p, true) := rfl

theorem mul_step_tf (adder p b : Nat) :
    mul_step adder p (b, true) false = (add_mod b b p, true) := rfl

theorem mul_step_ft (adder p b : Nat) :
    mul_step adder p (b, false) true = (add_mod b adder p, true) := rfl

theorem mul_step_ff (adder p b : Nat) :
    mul_step adder p (b, false) false = (b, false) := rfl

/-- `mul_loop` after the first set bit: the accumulator is doubled and
`adder` is added on set bits, so it holds `b * 2^f + adder * (low f bits
of k)` mod `p`. -/
theorem mul_loop_on {adder p k : Nat} (hp0 : 0 < p) (hp : p ≤ U256size) :
    ∀ (f : Nat) (b : Nat), b < p →
      (mul_loop adder p k f (b, true)).1 = (b * 2 ^ f + adder * (k % 2 ^ f)) % p := by
  intro f
  induction f with
  | zero =>
    intro b hb
    simp [mul_loop, Nat.mod_one, Nat.mod_eq_of_lt hb]
  | succ f ih =>
    intro b hb
    rw [mul_loop_succ]
    cases hd : k.testBit f
    · rw [mul_step_tf, add_mod_eq hp b b, ih _ (Nat.mod_lt _ hp0)]
      rw [mod_mul_add_mod, mod_pow_succ_testBit, hd, if_neg (by simp)]
      rw [Nat.zero_add, pow_succ]
      congr 1
      ring
    · rw [mul_step_tt, add_mod_eq hp b b, add_mod_eq hp, ih _ (Nat.mod_lt _ hp0)]
      have h1 : ((b + b) % p + adder) % p = (b + b + adder) % p :=
        Nat.ModEq.add_right adder ((b + b).mod_modEq p)
      rw [h1, mod_mul_add_mod, mod_pow_succ_testBit, hd, if_pos rfl, pow_succ]
      congr 1
      ring

/-- `mul_loop` from the initial state `(0, false)` computes
`adder * (low f bits of k)` mod `p`. -/
theorem mul_loop_off {adder p k : Nat} (hp0 : 0 < p) (hp : p ≤ U256size) :
    ∀ f : Nat, (mul_loop adder p k f (0, false)).1 = adder * (k % 2 ^ f) % p := by
  intro f
  induction f with
  | zero => simp [mul_loop, Nat.mod_one]
  | succ f ih =>
    rw [mul_loop_succ]
    cases hd : k.testBit f
    · rw [mul_step_ff, ih, mod_pow_succ_testBit, hd, if_neg (by simp), Nat.zero_add]
    · rw [mul_step_ft, add_mod_eq hp 0 adder, Nat.zero_add]
      rw [mul_loop_on hp0 hp _ _ (Nat.mod_lt _ hp0)]
      rw [mod_mul_add_mod, mod_pow_succ_testBit, hd, if_pos rfl, Nat.mul_add]

/-- The `mul_mod` ladder computes ordinary modular multiplication
whenever the modulus fits in 256 bits. -/
theorem mul_mod_eq {p : Nat} (hp0 : 0 < p) (hp : p ≤ U256size) (a b : Nat) :
    mul_mod a b p = a * b % p := by
  unfold mul_mod
  have hlt : ∀ x : Nat, x % p < 2 ^ 256 :=
    fun x => lt_of_lt_of_le (Nat.mod_lt _ hp0) hp
  by_cases h : a % p < b % p
  · simp only [h, if_true]
    rw [mul_loop_off hp0 hp, Nat.mod_eq_of_lt (hlt a)]
    rw [Nat.mul_comm (b % p), ← Nat.mul_mod]
  · simp only [h, if_false]
    rw [mul_loop_off hp0 hp, Nat.mod_eq_of_lt (hlt b)]
    rw [← Nat.mul_mod]

/-- Every state of the `mul_mod` ladder stays reduced. -/
theorem mul_loop_lt {adder p k : Nat} (hp0 : 0 < p) :
    ∀ (f : Nat) (st : Nat × Bool), st.1 < p → (mul_loop adder p k f st).1 < p := by
  intro f
  induction f with
  | zero => intro st h; exact h
  | succ f ih =>
    intro st h
    simp only [mul_loop]
    apply ih
    simp only [mul_step]
    by_cases hd : k.testBit f <;> by_cases ho : st.2 <;>
      simp [hd, ho, add_mod_lt hp0, h]

/-- `mul_mod` always returns a value below the (positive) modulus. -/
theorem mul_mod_lt {p : Nat} (hp0 : 0 < p) (a b : Nat) : mul_mod a b p < p := by
  unfold mul_mod
  exact mul_loop_lt hp0 256 _ hp0

theorem exp_loop_succ (m p e f : Nat) (st : Nat × Bool) :
    exp_loop m p e (f + 1) st =
      exp_loop m p e f (exp_step m p st (e.testBit f)) := rfl

theorem exp_step_tt (m p b : Nat) :
    exp_step m p (b, true) true = (mul_mod (mul_mod b b p) m p, true) := rfl

theorem exp_step_tf (m p b : Nat) :
    exp_step m p (b, true) false = (mul_mod b b p, true) := rfl

theorem exp_step_ft (m p b : Nat) :
    exp_step m p (b, false) true = (mul_mod b m p, true) := rfl

theorem exp_step_ff (m p b : Nat) :
    exp_step m p (b, false) false = (b, false) := rfl

/-- Squares unfold: `(b * b) ^ t = b ^ (t * 2)`. -/
theorem sq_pow (b t : Nat) : (b * b) ^ t = b ^ (t * 2) := by
  rw [← pow_two, ← pow_mul, Nat.mul_comm]

/-- `exp_loop` after the first set bit: the accumulator is squared each
step and multiplied by `m` on set bits. -/
theorem exp_loop_on {m p e : Nat} (hp0 : 0 < p) (hp : p ≤ U256size) :
    ∀ (f : Nat) (b : Nat), b < p →
      (exp_loop m p e f (b, true)).1 = b ^ 2 ^ f * m ^ (e % 2 ^ f) % p := by
  intro f
  induction f with
  | zero =>
    intro b hb
    simp [exp_loop, Nat.mod_one, Nat.mod_eq_of_lt hb]
  | succ f ih =>
    intro b hb
    rw [exp_loop_succ]
    cases hd : e.testBit f
    · rw [exp_step_tf, mul_mod_eq hp0 hp b b, ih _ (Nat.mod_lt _ hp0)]
      rw [mod_pow_mul_mod, mod_pow_succ_testBit, hd, if_neg (by simp)]
      rw [Nat.zero_add, sq_pow, pow_succ]
    · rw [exp_step_tt, mul_mod_eq hp0 hp b b, mul_mod_eq hp0 hp]
      rw [ih _ (Nat.mod_lt _ hp0)]
      have h1 : (b * b % p * m) % p = (b * b * m) % p :=
        Nat.ModEq.mul_right m ((b * b).mod_modEq p)
      rw [h1, mod_pow_mul_mod, mod_pow_succ_testBit, hd, if_pos rfl]
      congr 1
      rw [mul_pow, sq_pow, pow_add, pow_succ, pow_mul]
      ring

/-- `exp_loop` from the initial state `(1, false)` computes
`m ^ (low f bits of e)` mod `p`. -/
theorem exp_loop_off {m p e : Nat} (hp1 : 1 < p) (hp : p ≤ U256size) :
    ∀ f : Nat, (exp_loop m p e f (1, false)).1 = m ^ (e % 2 ^ f) % p := by
  have hp0 : 0 < p := Nat.lt_of_lt_of_le Nat.zero_lt_one hp1.le
  intro f
  induction f with
  | zero => simp [exp_loop, Nat.mod_one, Nat.mod_eq_of_lt hp1]
  | succ f ih =>
    rw [exp_loop_succ]
    cases hd : e.testBit f
    · rw [exp_step_ff, ih, mod_pow_succ_testBit, hd, if_neg (by simp), Nat.zero_add]
    · rw [exp_step_ft, mul_mod_eq hp0 hp 1 m, Nat.one_mul]
      rw [exp_loop_on hp0 hp _ _ (Nat.mod_lt _ hp0)]
      rw [mod_pow_mul_mod, mod_pow_succ_testBit, hd, if_pos rfl, pow_add]

/-- The `exp_mod` ladder computes modular exponentiation of the reduced
base by the low 256 bits of the exponent. -/
theorem exp_mod_eq {p : Nat} (hp1 : 1 < p) (hp : p ≤ U256size) (a e : Nat) :
    exp_mod a e p = (a % p) ^ (e % U256size) % p := by
  unfold exp_mod U256size
  exact exp_loop_off hp1 hp 256

/-- Every state of the `exp_mod` ladder stays reduced (the initial `1`
needs `1 < p`). -/
theorem exp_loop_lt {m p e : Nat} (hp0 : 0 < p) :
    ∀ (f : Nat) (st : Nat × Bool), st.1 < p → (exp_loop m p e f st).1 < p := by
  intro f
  induction f with
  | zero => intro st h; exact h
  | succ f ih =>
    intro st h
    simp only [exp_loop]
    apply ih
    simp only [exp_step]
    by_cases hd : e.testBit f <;> by_cases ho : st.2 <;>
      simp [hd, ho, mul_mod_lt hp0, h]

/-- `exp_mod` always returns a value below the modulus when `1 < p`. -/
theorem exp_mod_lt {p : Nat} (hp1 : 1 < p) (a e : Nat) : exp_mod a e p < p := by
  unfold exp_mod
  exact exp_loop_lt (Nat.lt_of_lt_of_le Nat.zero_lt_one hp1.le) 256 _ hp1

/-- `powModAux` computes modular exponentiation for exponents below
`2 ^ fuel`. -/
theorem powModAux_eq (p : Nat) :
    ∀ (f a e : Nat), e < 2 ^ f → powModAux p f a e = a ^ e % p := by
  intro f
  induction f with
  | zero =>
    intro a e he
    interval_cases e
    simp [powModAux]
  | succ f ih =>
    intro a e he
    rw [powModAux]
    by_cases he0 : e = 0
    · simp [he0]
    · simp only [he0, if_false]
      have hh : e / 2 < 2 ^ f := by
        rw [Nat.pow_succ] at he
        omega
      rw [ih _ _ hh, ← Nat.pow_mod]
      by_cases hodd : e % 2 = 1
      · simp only [hodd, if_true]
        have h2 : a * ((a * a) ^ (e / 2) % p) % p = a * (a * a) ^ (e / 2) % p :=
          Nat.ModEq.mul_left a (((a * a) ^ (e / 2)).mod_modEq p)
        rw [h2, sq_pow]
        have h3 : a * a ^ (e / 2 * 2) = a ^ e := by
          rw [← pow_succ']
          congr 1
          omega
        rw [h3]
      · simp only [hodd, if_false]
        rw [sq_pow]
        have h4 : e / 2 * 2 = e := by omega
        rw [h4]

/-- `powMod` computes `(a % p) ^ e % p` for exponents below `2 ^ 256`. -/
theorem powMod_eq (p : Nat) (a e : Nat) (he : e < U256size) :
    powMod a e p = (a % p) ^ e % p := by
  unfold powMod
  rw [powModAux_eq p 256 _ _ he]

/-- `exp_mod` agrees with the fast `powMod` for in-range exponents. -/
theorem exp_mod_eqF {p e : Nat} (hp1 : 1 < p) (hp : p ≤ U256size)
    (he : e < U256size) (a : Nat) : exp_mod a e p = powMod a e p := by
  rw [exp_mod_eq hp1 hp, powMod_eq p a e he, Nat.mod_eq_of_lt he]

/-- The `div_mod` Fermat division agrees with the fast `divF`. -/
theorem div_mod_eq {p : Nat} (hp2 : 2 < p) (hp : p ≤ U256size) (a b : Nat) :
    div_mod a b p = divF a b p := by
  unfold div_mod divF
  rw [mul_mod_eq (by omega) hp, exp_mod_eqF (by omega) hp (by omega) b]

/-- `div_mod` always returns a value below the modulus when `2 < p`. -/
theorem div_mod_lt {p : Nat} (hp2 : 2 < p) (a b : Nat) : div_mod a b p < p :=
  mul_mod_lt (by omega) _ _

/-! ## The panic-aware arithmetic never panics for positive 256-bit moduli -/

theorem add_modC_some {p : Nat} (hp0 : 0 < p) (hp : p ≤ U256size) (a b : Nat) :
    add_modC a b p = some (add_mod a b p) := by
  have h1 : a % p < p := Nat.mod_lt _ hp0
  have h2 : b % p < p := Nat.mod_lt _ hp0
  unfold add_modC add_mod
  rw [if_neg (by omega)]
  by_cases hs : a % p + b % p < U256size
  · simp only [hs, if_true]
  · simp only [hs, if_false]
    rw [if_pos (by omega)]

theorem sub_modC_some {p : Nat} (hp0 : 0 < p) (hp : p ≤ U256size) (a b : Nat) :
    sub_modC a b p = some (sub_mod a b p) := by
  unfold sub_modC sub_mod
  rw [if_neg (by omega), add_modC_some hp0 hp]

theorem mul_stepC_some {adder p : Nat} (hp0 : 0 < p) (hp : p ≤ U256size)
    (st : Nat × Bool) (d : Bool) :
    mul_stepC adder p st d = some (mul_step adder p st d) := by
  obtain ⟨b, flag⟩ := st
  cases flag <;> cases d <;>
    simp [mul_stepC, mul_step, add_modC_some hp0 hp]

theorem mul_loopC_some {adder p k : Nat} (hp0 : 0 < p) (hp : p ≤ U256size) :
    ∀ (f : Nat) (st : Nat × Bool),
      mul_loopC adder p k f st = some (mul_loop adder p k f st) := by
  intro f
  induction f with
  | zero => intro st; rfl
  | succ f ih =>
    intro st
    rw [mul_loopC, mul_stepC_some hp0 hp, mul_loop]
    exact ih _

theorem mul_modC_some {p : Nat} (hp0 : 0 < p) (hp : p ≤ U256size) (a b : Nat) :
    mul_modC a b p = some (mul_mod a b p) := by
  unfold mul_modC mul_mod
  rw [if_neg (by omega)]
  simp only [mul_loopC_some hp0 hp]
  rfl

theorem exp_stepC_some {m p : Nat} (hp0 : 0 < p) (hp : p ≤ U256size)
    (st : Nat × Bool) (d : Bool) :
    exp_stepC m p st d = some (exp_step m p st d) := by
  obtain ⟨b, flag⟩ := st
  cases flag <;> cases d <;>
    simp [exp_stepC, exp_step, mul_modC_some hp0 hp]

theorem exp_loopC_some {m p e : Nat} (hp0 : 0 < p) (hp : p ≤ U256size) :
    ∀ (f : Nat) (st : Nat × Bool),
      exp_loopC m p e f st = some (exp_loop m p e f st) := by
  intro f
  induction f with
  | zero => intro st; rfl
  | succ f ih =>
    intro st
    rw [exp_loopC, exp_stepC_some hp0 hp, exp_loop]
    exact ih _

theorem exp_modC_some {p : Nat} (hp0 : 0 < p) (hp : p ≤ U256size) (a e : Nat) :
    exp_modC a e p = some (exp_mod a e p) := by
  unfold exp_modC exp_mod
  rw [if_neg (by omega)]
  simp only [exp_loopC_some hp0 hp]
  rfl

theorem div_modC_some {p : Nat} (hp2 : 2 < p) (hp : p ≤ U256size) (a b : Nat) :
    div_modC a b p = some (div_mod a b p) := by
  unfold div_modC div_mod
  rw [if_neg (by omega), exp_modC_some (by omega) hp]
  show mul_modC a (exp_mod b (p - 2) p) p = _
  rw [mul_modC_some (by omega) hp]

/-! ## Special values of the ladders -/

/-- A ladder over the all-zero bit string leaves the off state unchanged. -/
theorem mul_loop_zero_k {adder p : Nat} :
    ∀ (f b : Nat), mul_loop adder p 0 f (b, false) = (b, false) := by
  intro f
  induction f with
  | zero => intro b; rfl
  | succ f ih =>
    intro b
    rw [mul_loop_succ, Nat.zero_testBit, mul_step_ff, ih]

/-- `mul_mod 0 b p = 0`, for every modulus (including `p = 0`). -/
theorem mul_mod_zero_left (b p : Nat) : mul_mod 0 b p = 0 := by
  unfold mul_mod
  simp only [Nat.zero_mod]
  by_cases h : 0 < b % p
  · rw [if_pos h, if_pos h, mul_loop_zero_k]
  · have hb : b % p = 0 := by omega
    rw [hb]
    simp [mul_loop_zero_k]

/-- `mul_mod a 0 p = 0`, for every modulus (including `p = 0`). -/
theorem mul_mod_zero_right (a p : Nat) : mul_mod a 0 p = 0 := by
  unfold mul_mod
  simp only [Nat.zero_mod]
  have h : ¬ (a % p < 0) := by omega
  rw [if_neg h, if_neg h, mul_loop_zero_k]

/-- `exp_mod` of a base divisible by `p` and a nonzero (windowed)
exponent is `0`. -/
theorem exp_mod_base_zero {p e : Nat} (hp1 : 1 < p) (hp : p ≤ U256size)
    (he : e % U256size ≠ 0) {a : Nat} (ha : a % p = 0) : exp_mod a e p = 0 := by
  rw [exp_mod_eq hp1 hp, ha, Nat.zero_pow (by omega), Nat.zero_mod]

/-- `exp_mod` with base `1` returns `1`. -/
theorem exp_mod_one_base {p : Nat} (hp1 : 1 < p) (hp : p ≤ U256size) (e : Nat) :
    exp_mod 1 e p = 1 := by
  rw [exp_mod_eq hp1 hp, Nat.mod_eq_of_lt hp1, one_pow, Nat.mod_eq_of_lt hp1]

/-- Dividing by a multiple of `p` silently returns `0`: the Fermat
"inverse" of `0` is `0`. -/
theorem div_mod_b_zero {p : Nat} (hp2 : 2 < p) (hp : p ≤ U256size) {b : Nat}
    (hb : b % p = 0) (a : Nat) : div_mod a b p = 0 := by
  unfold div_mod
  rw [exp_mod_base_zero (by omega) hp (by rw [Nat.mod_eq_of_lt (by omega)]; omega) hb,
      mul_mod_zero_right]

/-- `mul_mod a 1 p` reduces `a` mod `p` (via `mul_mod_eq`). -/
theorem mul_mod_one_right {p : Nat} (hp0 : 0 < p) (hp : p ≤ U256size) (a : Nat) :
    mul_mod a 1 p = a % p := by
  rw [mul_mod_eq hp0 hp, Nat.mul_one]

/-- `div_mod a 1 p = a % p`: the inverse of `1` is `1`. -/
theorem div_mod_one_right {p : Nat} (hp2 : 2 < p) (hp : p ≤ U256size) (a : Nat) :
    div_mod a 1 p = a % p := by
  unfold div_mod
  rw [exp_mod_one_base (by omega) hp, mul_mod_one_right (by omega) hp]

/-! ## Fast mirrors of the point and signature operations -/

theorem add_mod_eqF {p : Nat} (hp : p ≤ U256size) (a b : Nat) :
    add_mod a b p = addF a b p := add_mod_eq hp a b

theorem mul_mod_eqF {p : Nat} (hp0 : 0 < p) (hp : p ≤ U256size) (a b : Nat) :
    mul_mod a b p = mulF a b p := mul_mod_eq hp0 hp a b

theorem two_lt_U256size : (2 : Nat) < U256size := by norm_num [U256size]
theorem three_lt_U256size : (3 : Nat) < U256size := by norm_num [U256size]
theorem four_lt_U256size : (4 : Nat) < U256size := by norm_num [U256size]

/-- Fast `ECAffinePoint::add` (non-panicking paths). -/
def ECAffinePoint.addFp (c : SECP256) (s o : ECAffinePoint) : ECAffinePoint :=
  if s.is_zero_point then o else
  if o.is_zero_point then s else
  let p := c.p
  let slope := divF (subF s.y o.y p) (subF s.x o.x p) p
  let x := subF (subF (mulF slope slope p) s.x p) o.x p
  let y := subF (mulF slope (subF s.x x p) p) s.y p
  { x := x, y := y }

/-- Fast `ECAffinePoint::double`. -/
def ECAffinePoint.doubleFp (c : SECP256) (s : ECAffinePoint) : ECAffinePoint :=
  if s.is_zero_point then ECAffinePoint.zero_point else
  if s.y = 0 then ECAffinePoint.zero_point else
  let p := c.p
  let slope := divF (addF (mulF (powMod s.x 2 p) 3 p) c.a p) (mulF s.y 2 p) p
  let x := subF (subF (mulF slope slope p) s.x p) s.x p
  let y := subF (mulF slope (subF s.x x p) p) s.y p
  { x := x, y := y }

/-- Fast affine double-and-add loop. -/
def af_mul_loopF (c : SECP256) (s : ECAffinePoint) (k : Nat) :
    Nat → ECAffinePoint → ECAffinePoint
  | 0, r => r
  | f + 1, r =>
    let r2 := r.doubleFp c
    af_mul_loopF c s k f (if k.testBit f then r2.addFp c s else r2)

/-- Fast `ECAffinePoint::multiply`. -/
def ECAffinePoint.multiplyFp (c : SECP256) (s : ECAffinePoint) (k : Nat) :
    ECAffinePoint :=
  if s.y = 0 || k = 0 then ECAffinePoint.zero_point else
  if k = 1 then s else
  af_mul_loopF c s k 256 ECAffinePoint.zero_point

/-- Fast `JacobianPoint::double`. -/
def JacobianPoint.doubleFp (c : SECP256) (s : JacobianPoint) : JacobianPoint :=
  if s.is_zero_point then JacobianPoint.zero_point else
  let p := c.p
  let ysq := mulF s.y s.y p
  let sq := mulF (mulF s.x 4 p) ysq p
  let m := addF (mulF (mulF s.x s.x p) 3 p) (mulF (powMod s.z 4 p) c.a p) p
  let x := subF (mulF m m p) (mulF 2 sq p) p
  let y := subF (mulF m (subF sq x p) p) (mulF 8 (mulF ysq ysq p) p) p
  let z := mulF (mulF s.y 2 p) s.z p
  { x := x, y := y, z := z }

/-- Fast `JacobianPoint::add`. -/
def JacobianPoint.addFp (c : SECP256) (s o : JacobianPoint) : JacobianPoint :=
  if s.is_zero_point then o else
  if o.is_zero_point then s else
  let p := c.p
  let z1z1 := mulF s.z s.z p
  let z2z2 := mulF o.z o.z p
  let u1 := mulF s.x z2z2 p
  let u2 := mulF o.x z1z1 p
  let s1 := mulF s.y (mulF o.z z2z2 p) p
  let s2 := mulF o.y (mulF s.z z1z1 p) p
  if u1 = u2 then
    (if s1 ≠ s2 then JacobianPoint.zero_point else s.doubleFp c)
  else
  let h := subF u2 u1 p
  let h2 := mulF h h p
  let h3 := mulF h2 h p
  let r := subF s2 s1 p
  let v := mulF u1 h2 p
  let x := subF (subF (mulF r r p) h3 p) (mulF v 2 p) p
  let y := subF (mulF r (subF v x p) p) (mulF s1 h3 p) p
  let z := mulF (mulF h s.z p) o.z p
  { x := x, y := y, z := z }

/-- Fast Jacobian double-and-add loop. -/
def jac_mul_loopF (c : SECP256) (s : JacobianPoint) (k : Nat) :
    Nat → JacobianPoint → JacobianPoint
  | 0, r => r
  | f + 1, r =>
    let r2 := r.doubleFp c
    jac_mul_loopF c s k f (if k.testBit f then r2.addFp c s else r2)

/-- Fast `JacobianPoint::multiply`. -/
def JacobianPoint.multiplyFp (c : SECP256) (s : JacobianPoint) (k : Nat) :
    JacobianPoint :=
  if s.y = 0 || k = 0 then JacobianPoint.zero_point else
  if k = 1 then s else
  jac_mul_loopF c s k 256 JacobianPoint.zero_point

/-- Fast `JacobianPoint::from_jacobian`. -/
def JacobianPoint.from_jacobianFp (c : SECP256) (s : JacobianPoint) : ECAffinePoint :=
  let p := c.p
  let z := divF 1 s.z p
  let zz := mulF z z p
  { x := mulF s.x zz p, y := mulF s.y (mulF zz z p) p }

/-- Fast `PrivateKey::to_pub_key`. -/
def to_pub_keyF (c : SECP256) (priv : Nat) : ECAffinePoint :=
  ((c.g.to_jacobian).multiplyFp c priv).from_jacobianFp c

/-- Fast `PrivateKey::raw_sign`. -/
def raw_signF (c : SECP256) (priv msg_hash nonce : Nat) : Signature :=
  let n := c.n
  let encoded_nonce := ((c.g.to_jacobian).multiplyFp c nonce).from_jacobianFp c
  let r := encoded_nonce.x
  let s := divF (addF msg_hash (mulF r priv n) n) nonce n
  if s ≤ c.n_div_2 then
    { r := r, s := s, v := if encoded_nonce.y % 2 = 0 then 27 else addF 27 1 n }
  else
    { r := r, s := subF n s n,
      v := if encoded_nonce.y % 2 = 0 then addF 27 1 n else 27 }

/-- Fast `Signature::raw_verify`. -/
def Signature.raw_verifyF (c : SECP256) (sig : Signature) (msg_hash : Nat)
    (pub_key : ECAffinePoint) : Bool :=
  let n := c.n
  let pa := (c.g.to_jacobian).multiplyFp c (divF msg_hash sig.s n)
  let pb := (pub_key.to_jacobian).multiplyFp c (divF sig.r sig.s n)
  let pc := pa.addFp c pb
  (pc.from_jacobianFp c).x == sig.r

/-- Fast `recover_rhs`. -/
def recover_rhsF (c : SECP256) (r : Nat) : Nat :=
  addF (addF (powMod r 3 c.p) (mulF c.a r c.p) c.p) c.b c.p

/-- Fast `recover_y`. -/
def recover_yF (c : SECP256) (r v : Nat) : Nat :=
  let possible_y := powMod (recover_rhsF c r) c.sqrt_exp_num c.p
  if (v % 2 = 1) ≠ (possible_y % 2 = 1) then possible_y
  else subF c.p possible_y c.p

/-! ## Equivalence of the model and fast point operations -/

theorem affine_add_eqF {c : SECP256} (hc : GoodCurve c)
    (s o : ECAffinePoint) : s.add c o = s.addFp c o := by
  obtain ⟨hp2, hpU, hn2, hnU⟩ := hc
  unfold ECAffinePoint.add ECAffinePoint.addFp
  simp only [mul_mod_eqF (by omega) hpU.le, sub_mod_eq hpU.le,
             div_mod_eq hp2 hpU.le]

theorem affine_double_eqF {c : SECP256} (hc : GoodCurve c)
    (s : ECAffinePoint) : s.double c = s.doubleFp c := by
  obtain ⟨hp2, hpU, hn2, hnU⟩ := hc
  unfold ECAffinePoint.double ECAffinePoint.doubleFp
  simp only [mul_mod_eqF (by omega) hpU.le, sub_mod_eq hpU.le, add_mod_eqF hpU.le,
             div_mod_eq hp2 hpU.le,
             exp_mod_eqF (by omega) hpU.le two_lt_U256size]

theorem af_mul_loop_eqF {c : SECP256} (hc : GoodCurve c) (s : ECAffinePoint)
    (k : Nat) : ∀ (f : Nat) (r : ECAffinePoint),
      af_mul_loop c s k f r = af_mul_loopF c s k f r := by
  intro f
  induction f with
  | zero => intro r; rfl
  | succ f ih =>
    intro r
    simp only [af_mul_loop, af_mul_loopF, affine_double_eqF hc,
               affine_add_eqF hc, ih]

theorem affine_multiply_eqF {c : SECP256} (hc : GoodCurve c)
    (s : ECAffinePoint) (k : Nat) : s.multiply c k = s.multiplyFp c k := by
  unfold ECAffinePoint.multiply ECAffinePoint.multiplyFp
  simp only [af_mul_loop_eqF hc]

theorem JacobianPoint.double_eqF {c : SECP256} (hc : GoodCurve c)
    (s : JacobianPoint) : s.double c = s.doubleFp c := by
  obtain ⟨hp2, hpU, hn2, hnU⟩ := hc
  unfold JacobianPoint.double JacobianPoint.doubleFp
  simp only [mul_mod_eqF (by omega) hpU.le, sub_mod_eq hpU.le, add_mod_eqF hpU.le,
             exp_mod_eqF (by omega) hpU.le four_lt_U256size]

theorem JacobianPoint.add_eqF {c : SECP256} (hc : GoodCurve c)
    (s o : JacobianPoint) : s.add c o = s.addFp c o := by
  have hp2 := hc.1
  have hpU := hc.2.1
  unfold JacobianPoint.add JacobianPoint.addFp
  simp only [mul_mod_eqF (by omega) hpU.le, sub_mod_eq hpU.le,
             JacobianPoint.double_eqF hc]

theorem jac_mul_loop_eqF {c : SECP256} (hc : GoodCurve c) (s : JacobianPoint)
    (k : Nat) : ∀ (f : Nat) (r : JacobianPoint),
      jac_mul_loop c s k f r = jac_mul_loopF c s k f r := by
  intro f
  induction f with
  | zero => intro r; rfl
  | succ f ih =>
    intro r
    simp only [jac_mul_loop, jac_mul_loopF, JacobianPoint.double_eqF hc,
               JacobianPoint.add_eqF hc, ih]

theorem JacobianPoint.multiply_eqF {c : SECP256} (hc : GoodCurve c)
    (s : JacobianPoint) (k : Nat) : s.multiply c k = s.multiplyFp c k := by
  unfold JacobianPoint.multiply JacobianPoint.multiplyFp
  simp only [jac_mul_loop_eqF hc]

theorem JacobianPoint.from_jacobian_eqF {c : SECP256} (hc : GoodCurve c)
    (s : JacobianPoint) : s.from_jacobian c = s.from_jacobianFp c := by
  obtain ⟨hp2, hpU, hn2, hnU⟩ := hc
  unfold JacobianPoint.from_jacobian JacobianPoint.from_jacobianFp
  simp only [mul_mod_eqF (by omega) hpU.le, div_mod_eq hp2 hpU.le]

theorem to_pub_key_eqF {c : SECP256} (hc : GoodCurve c) (priv : Nat) :
    to_pub_key c priv = to_pub_keyF c priv := by
  unfold to_pub_key to_pub_keyF
  rw [JacobianPoint.multiply_eqF hc, JacobianPoint.from_jacobian_eqF hc]

theorem raw_sign_eqF {c : SECP256} (hc : GoodCurve c) (priv msg_hash nonce : Nat) :
    raw_sign c priv msg_hash nonce = raw_signF c priv msg_hash nonce := by
  obtain ⟨hp2, hpU, hn2, hnU⟩ := hc
  unfold raw_sign raw_signF
  rw [JacobianPoint.multiply_eqF ⟨hp2, hpU, hn2, hnU⟩,
      JacobianPoint.from_jacobian_eqF ⟨hp2, hpU, hn2, hnU⟩]
  simp only [mul_mod_eqF (by omega) hnU.le, add_mod_eqF hnU.le, sub_mod_eq hnU.le,
             div_mod_eq hn2 hnU.le]

theorem raw_verify_eqF {c : SECP256} (hc : GoodCurve c) (sig : Signature)
    (msg_hash : Nat) (pub_key : ECAffinePoint) :
    sig.raw_verify c msg_hash pub_key = sig.raw_verifyF c msg_hash pub_key := by
  obtain ⟨hp2, hpU, hn2, hnU⟩ := hc
  unfold Signature.raw_verify Signature.raw_verifyF
  simp only [JacobianPoint.multiply_eqF ⟨hp2, hpU, hn2, hnU⟩,
             JacobianPoint.add_eqF ⟨hp2, hpU, hn2, hnU⟩,
             JacobianPoint.from_jacobian_eqF ⟨hp2, hpU, hn2, hnU⟩,
             div_mod_eq hn2 hnU.le]

/-! ## Panic-aware point and signature operations

The `bind..` helpers are `Option.bind` at fixed types; using them keeps
the elaboration of the long panic-propagation chains linear. -/

def bindNA (x : Option Nat) (f : Nat → Option ECAffinePoint) : Option ECAffinePoint :=
  Option.bind x f

def bindNJ (x : Option Nat) (f : Nat → Option JacobianPoint) : Option JacobianPoint :=
  Option.bind x f

def bindNS (x : Option Nat) (f : Nat → Option Signature) : Option Signature :=
  Option.bind x f

def bindNB (x : Option Nat) (f : Nat → Option Bool) : Option Bool :=
  Option.bind x f

def bindJJ (x : Option JacobianPoint) (f : JacobianPoint → Option JacobianPoint) :
    Option JacobianPoint :=
  Option.bind x f

def bindJA (x : Option JacobianPoint) (f : JacobianPoint → Option ECAffinePoint) :
    Option ECAffinePoint :=
  Option.bind x f

def bindJS (x : Option JacobianPoint) (f : JacobianPoint → Option Signature) :
    Option Signature :=
  Option.bind x f

def bindJB (x : Option JacobianPoint) (f : JacobianPoint → Option Bool) :
    Option Bool :=
  Option.bind x f

def bindAS (x : Option ECAffinePoint) (f : ECAffinePoint → Option Signature) :
    Option Signature :=
  Option.bind x f

def bindAB (x : Option ECAffinePoint) (f : ECAffinePoint → Option Bool) :
    Option Bool :=
  Option.bind x f

theorem bindNA_some (v : Nat) (f : Nat → Option ECAffinePoint) :
    bindNA (some v) f = f v := rfl
theorem bindNJ_some (v : Nat) (f : Nat → Option JacobianPoint) :
    bindNJ (some v) f = f v := rfl
theorem bindNS_some (v : Nat) (f : Nat → Option Signature) :
    bindNS (some v) f = f v := rfl
theorem bindNB_some (v : Nat) (f : Nat → Option Bool) :
    bindNB (some v) f = f v := rfl
theorem bindJJ_some (v : JacobianPoint) (f : JacobianPoint → Option JacobianPoint) :
    bindJJ (some v) f = f v := rfl
theorem bindJA_some (v : JacobianPoint) (f : JacobianPoint → Option ECAffinePoint) :
    bindJA (some v) f = f v := rfl
theorem bindJS_some (v : JacobianPoint) (f : JacobianPoint → Option Signature) :
    bindJS (some v) f = f v := rfl
theorem bindJB_some (v : JacobianPoint) (f : JacobianPoint → Option Bool) :
    bindJB (some v) f = f v := rfl
theorem bindAS_some (v : ECAffinePoint) (f : ECAffinePoint → Option Signature) :
    bindAS (some v) f = f v := rfl
theorem bindAB_some (v : ECAffinePoint) (f : ECAffinePoint → Option Bool) :
    bindAB (some v) f = f v := rfl

/-- `ECAffinePoint::add` with its panic paths: the leading
`assert!(self.y != other.y, "should use doubling")` runs before the
identity special cases, so any call with equal ordinates panics. -/
def ECAffinePoint.addC (c : SECP256) (s o : ECAffinePoint) : Option ECAffinePoint :=
  if s.y = o.y then none else
  if s.is_zero_point then some o else
  if o.is_zero_point then some s else
  bindNA (sub_modC s.y o.y c.p) fun dy =>
  bindNA (sub_modC s.x o.x c.p) fun dx =>
  bindNA (div_modC dy dx c.p) fun slope =>
  bindNA (mul_modC slope slope c.p) fun s2 =>
  bindNA (sub_modC s2 s.x c.p) fun t1 =>
  bindNA (sub_modC t1 o.x c.p) fun x =>
  bindNA (sub_modC s.x x c.p) fun d2 =>
  bindNA (mul_modC slope d2 c.p) fun t2 =>
  bindNA (sub_modC t2 s.y c.p) fun y =>
  some { x := x, y := y }

/-- `JacobianPoint::double` with its panic paths. -/
def JacobianPoint.doubleC (c : SECP256) (s : JacobianPoint) : Option JacobianPoint :=
  if s.is_zero_point then some JacobianPoint.zero_point else
  bindNJ (mul_modC s.y s.y c.p) fun ysq =>
  bindNJ (mul_modC s.x 4 c.p) fun x4 =>
  bindNJ (mul_modC x4 ysq c.p) fun sq =>
  bindNJ (mul_modC s.x s.x c.p) fun xx =>
  bindNJ (mul_modC xx 3 c.p) fun xx3 =>
  bindNJ (exp_modC s.z 4 c.p) fun z4 =>
  bindNJ (mul_modC z4 c.a c.p) fun z4a =>
  bindNJ (add_modC xx3 z4a c.p) fun m =>
  bindNJ (mul_modC m m c.p) fun mm =>
  bindNJ (mul_modC 2 sq c.p) fun sq2 =>
  bindNJ (sub_modC mm sq2 c.p) fun x =>
  bindNJ (sub_modC sq x c.p) fun sx =>
  bindNJ (mul_modC m sx c.p) fun msx =>
  bindNJ (mul_modC ysq ysq c.p) fun y4 =>
  bindNJ (mul_modC 8 y4 c.p) fun y48 =>
  bindNJ (sub_modC msx y48 c.p) fun y =>
  bindNJ (mul_modC s.y 2 c.p) fun y2 =>
  bindNJ (mul_modC y2 s.z c.p) fun z =>
  some { x := x, y := y, z := z }

/-- `JacobianPoint::add` with its panic paths. -/
def JacobianPoint.addC (c : SECP256) (s o : JacobianPoint) : Option JacobianPoint :=
  if s.is_zero_point then some o else
  if o.is_zero_point then some s else
  bindNJ (mul_modC s.z s.z c.p) fun z1z1 =>
  bindNJ (mul_modC o.z o.z c.p) fun z2z2 =>
  bindNJ (mul_modC s.x z2z2 c.p) fun u1 =>
  bindNJ (mul_modC o.x z1z1 c.p) fun u2 =>
  bindNJ (mul_modC o.z z2z2 c.p) fun t1 =>
  bindNJ (mul_modC s.y t1 c.p) fun s1 =>
  bindNJ (mul_modC s.z z1z1 c.p) fun t2 =>
  bindNJ (mul_modC o.y t2 c.p) fun s2 =>
  if u1 = u2 then
    (if s1 ≠ s2 then some JacobianPoint.zero_point else s.doubleC c)
  else
  bindNJ (sub_modC u2 u1 c.p) fun h =>
  bindNJ (mul_modC h h c.p) fun h2 =>
  bindNJ (mul_modC h2 h c.p) fun h3 =>
  bindNJ (sub_modC s2 s1 c.p) fun r =>
  bindNJ (mul_modC u1 h2 c.p) fun v =>
  bindNJ (mul_modC r r c.p) fun rr =>
  bindNJ (sub_modC rr h3 c.p) fun t3 =>
  bindNJ (mul_modC v 2 c.p) fun v2 =>
  bindNJ (sub_modC t3 v2 c.p) fun x =>
  bindNJ (sub_modC v x c.p) fun vx =>
  bindNJ (mul_modC r vx c.p) fun rvx =>
  bindNJ (mul_modC s1 h3 c.p) fun s1h3 =>
  bindNJ (sub_modC rvx s1h3 c.p) fun y =>
  bindNJ (mul_modC h s.z c.p) fun hz =>
  bindNJ (mul_modC hz o.z c.p) fun z =>
  some { x := x, y := y, z := z }

/-- The Jacobian double-and-add loop with its panic paths. -/
def jac_mul_loopC (c : SECP256) (s : JacobianPoint) (k : Nat) :
    Nat → JacobianPoint → Option JacobianPoint
  | 0, r => some r
  | f + 1, r =>
    bindJJ (r.doubleC c) fun r2 =>
    bindJJ (if k.testBit f then r2.addC c s else some r2) fun r3 =>
    jac_mul_loopC c s k f r3

/-- `JacobianPoint::multiply` with its panic paths. -/
def JacobianPoint.multiplyC (c : SECP256) (s : JacobianPoint) (k : Nat) :
    Option JacobianPoint :=
  if s.y = 0 || k = 0 then some JacobianPoint.zero_point else
  if k = 1 then some s else
  jac_mul_loopC c s k 256 JacobianPoint.zero_point

/-- `JacobianPoint::from_jacobian` with its panic paths. -/
def JacobianPoint.from_jacobianC (c : SECP256) (s : JacobianPoint) :
    Option ECAffinePoint :=
  bindNA (div_modC 1 s.z c.p) fun z =>
  bindNA (mul_modC z z c.p) fun zz =>
  bindNA (mul_modC s.x zz c.p) fun x =>
  bindNA (mul_modC zz z c.p) fun zzz =>
  bindNA (mul_modC s.y zzz c.p) fun y =>
  some { x := x, y := y }

/-- `PrivateKey::raw_sign` with its panic paths. -/
def raw_signC (c : SECP256) (priv msg_hash nonce : Nat) : Option Signature :=
  bindJS (JacobianPoint.multiplyC c c.g.to_jacobian nonce) fun pn =>
  bindAS (pn.from_jacobianC c) fun encoded_nonce =>
  bindNS (mul_modC encoded_nonce.x priv c.n) fun t1 =>
  bindNS (add_modC msg_hash t1 c.n) fun t2 =>
  bindNS (div_modC t2 nonce c.n) fun s =>
  if s ≤ c.n_div_2 then
    bindNS (if encoded_nonce.y % 2 = 0 then some 27 else add_modC 27 1 c.n) fun v =>
    some { r := encoded_nonce.x, s := s, v := v }
  else
    bindNS (sub_modC c.n s c.n) fun s2 =>
    bindNS (if encoded_nonce.y % 2 = 0 then add_modC 27 1 c.n else some 27) fun v =>
    some { r := encoded_nonce.x, s := s2, v := v }

/-- `Signature::raw_verify` with its panic paths. -/
def Signature.raw_verifyC (c : SECP256) (sig : Signature) (msg_hash : Nat)
    (pub_key : ECAffinePoint) : Option Bool :=
  bindNB (div_modC msg_hash sig.s c.n) fun u1 =>
  bindJB (JacobianPoint.multiplyC c c.g.to_jacobian u1) fun pa =>
  bindNB (div_modC sig.r sig.s c.n) fun u2 =>
  bindJB (JacobianPoint.multiplyC c pub_key.to_jacobian u2) fun pb =>
  bindJB (pa.addC c pb) fun pc =>
  bindAB (pc.from_jacobianC c) fun q =>
  some (q.x == sig.r)

/-- `Signature::raw_recover` with its panic paths: the two `assert`s (on
`v` and on the on-curve check), the `assert` on `r, s mod n`, and the
panics of the arithmetic layer. -/
def Signature.raw_recoverC (c : SECP256) (sig : Signature) (msg_hash : Nat) :
    Option ECAffinePoint :=
  if ¬ (sig.v = 27 ∨ sig.v = 28) then none else
  bindNA (exp_modC sig.r 3 c.p) fun r3 =>
  bindNA (mul_modC c.a sig.r c.p) fun ar =>
  bindNA (add_modC r3 ar c.p) fun t =>
  bindNA (add_modC t c.b c.p) fun x_cubed_ax_b =>
  bindNA (exp_modC x_cubed_ax_b c.sqrt_exp_num c.p) fun possible_y =>
  bindNA (if (sig.v % 2 = 1) ≠ (possible_y % 2 = 1) then some possible_y
          else sub_modC c.p possible_y c.p) fun y =>
  bindNA (mul_modC y y c.p) fun ysq =>
  bindNA (sub_modC x_cubed_ax_b ysq c.p) fun chk =>
  if chk ≠ 0 then none else
  if c.n = 0 then none else
  if sig.r % c.n = 0 ∨ sig.s % c.n = 0 then none else
  bindJA (JacobianPoint.multiplyC c
    (ECAffinePoint.to_jacobian { x := sig.r, y := y }) sig.s) fun pa =>
  bindNA (sub_modC c.n msg_hash c.n) fun negh =>
  bindJA (JacobianPoint.multiplyC c c.g.to_jacobian negh) fun pb =>
  bindJA (pa.addC c pb) fun pc =>
  bindNA (div_modC 1 sig.r c.n) fun rinv =>
  bindJA (pc.multiplyC c rinv) fun pk =>
  pk.from_jacobianC c

/-! ## The panic-aware layer never panics on a good curve
(with the exception of `ECAffinePoint::add` on equal ordinates) -/

theorem JacobianPoint.doubleC_some {c : SECP256} (hc : GoodCurve c)
    (s : JacobianPoint) : s.doubleC c = some (s.double c) := by
  obtain ⟨hp2, hpU, hn2, hnU⟩ := hc
  unfold JacobianPoint.doubleC JacobianPoint.double
  by_cases hz : s.is_zero_point
  · simp only [hz, if_true]
  · simp only [hz, if_false, mul_modC_some (by omega : 0 < c.p) hpU.le,
      add_modC_some (by omega : 0 < c.p) hpU.le,
      sub_modC_some (by omega : 0 < c.p) hpU.le,
      exp_modC_some (by omega : 0 < c.p) hpU.le, bindNJ_some]
    rfl

theorem JacobianPoint.addC_some {c : SECP256} (hc : GoodCurve c)
    (s o : JacobianPoint) : s.addC c o = some (s.add c o) := by
  have hp2 := hc.1
  have hpU := hc.2.1
  unfold JacobianPoint.addC JacobianPoint.add
  by_cases hz1 : s.is_zero_point
  · simp only [hz1, if_true]
  · by_cases hz2 : o.is_zero_point
    · simp only [hz1, hz2, if_true, if_false]
      rfl
    · simp only [hz1, hz2, if_false, mul_modC_some (by omega : 0 < c.p) hc.2.1.le,
        sub_modC_some (by omega : 0 < c.p) hc.2.1.le, bindNJ_some,
        JacobianPoint.doubleC_some hc]
      by_cases hu : mul_mod s.x (mul_mod o.z o.z c.p) c.p
                  = mul_mod o.x (mul_mod s.z s.z c.p) c.p
      · by_cases hs : mul_mod s.y (mul_mod o.z (mul_mod o.z o.z c.p) c.p) c.p
                    = mul_mod o.y (mul_mod s.z (mul_mod s.z s.z c.p) c.p) c.p <;>
          simp [hu, hs]
      · simp only [hu, if_false]
        rfl

theorem jac_mul_loopC_some {c : SECP256} (hc : GoodCurve c) (s : JacobianPoint)
    (k : Nat) : ∀ (f : Nat) (r : JacobianPoint),
      jac_mul_loopC c s k f r = some (jac_mul_loop c s k f r) := by
  intro f
  induction f with
  | zero => intro r; rfl
  | succ f ih =>
    intro r
    rw [jac_mul_loopC, JacobianPoint.doubleC_some hc, bindJJ_some]
    cases hd : k.testBit f
    · rw [if_neg (by simp), bindJJ_some, ih, jac_mul_loop]
      rw [hd, if_neg (by simp)]
    · rw [if_pos rfl, JacobianPoint.addC_some hc, bindJJ_some, ih, jac_mul_loop]
      rw [hd, if_pos rfl]

theorem JacobianPoint.multiplyC_some {c : SECP256} (hc : GoodCurve c)
    (s : JacobianPoint) (k : Nat) : s.multiplyC c k = some (s.multiply c k) := by
  unfold JacobianPoint.multiplyC JacobianPoint.multiply
  by_cases h1 : s.y = 0 || k = 0
  · simp only [h1, if_true]
  · by_cases h2 : k = 1 <;> simp [h1, h2, jac_mul_loopC_some hc, apply_ite some]

theorem JacobianPoint.from_jacobianC_some {c : SECP256} (hc : GoodCurve c)
    (s : JacobianPoint) : s.from_jacobianC c = some (s.from_jacobian c) := by
  obtain ⟨hp2, hpU, hn2, hnU⟩ := hc
  unfold JacobianPoint.from_jacobianC JacobianPoint.from_jacobian
  simp only [div_modC_some hp2 hpU.le, mul_modC_some (by omega : 0 < c.p) hpU.le,
             bindNA_some]

theorem affine_addC_some {c : SECP256} (hc : GoodCurve c)
    {s o : ECAffinePoint} (h : s.y ≠ o.y) : s.addC c o = some (s.add c o) := by
  obtain ⟨hp2, hpU, hn2, hnU⟩ := hc
  unfold ECAffinePoint.addC ECAffinePoint.add
  rw [if_neg h]
  by_cases hz1 : s.is_zero_point
  · simp only [hz1, if_true]
  · by_cases hz2 : o.is_zero_point
    · simp only [hz1, hz2, if_true, if_false]
      rfl
    · simp only [hz1, hz2, if_false, mul_modC_some (by omega : 0 < c.p) hpU.le,
        sub_modC_some (by omega : 0 < c.p) hpU.le,
        div_modC_some hp2 hpU.le, bindNA_some]
      rfl

theorem raw_signC_some {c : SECP256} (hc : GoodCurve c) (priv msg_hash nonce : Nat) :
    raw_signC c priv msg_hash nonce = some (raw_sign c priv msg_hash nonce) := by
  obtain ⟨hp2, hpU, hn2, hnU⟩ := hc
  unfold raw_signC raw_sign
  simp only [JacobianPoint.multiplyC_some ⟨hp2, hpU, hn2, hnU⟩,
             JacobianPoint.from_jacobianC_some ⟨hp2, hpU, hn2, hnU⟩,
             mul_modC_some (by omega : 0 < c.n) hnU.le,
             add_modC_some (by omega : 0 < c.n) hnU.le,
             sub_modC_some (by omega : 0 < c.n) hnU.le,
             div_modC_some hn2 hnU.le, bindJS_some, bindAS_some, bindNS_some]
  by_cases hle : div_mod (add_mod msg_hash
      (mul_mod (((c.g.to_jacobian).multiply c nonce).from_jacobian c).x priv c.n)
      c.n) nonce c.n ≤ c.n_div_2 <;>
    by_cases hpar : (((c.g.to_jacobian).multiply c nonce).from_jacobian c).y % 2 = 0 <;>
    simp [hle, hpar, add_modC_some (by omega : 0 < c.n) hnU.le, bindNS_some]

theorem Signature.raw_verifyC_some {c : SECP256} (hc : GoodCurve c)
    (sig : Signature) (msg_hash : Nat) (pub_key : ECAffinePoint) :
    sig.raw_verifyC c msg_hash pub_key = some (sig.raw_verify c msg_hash pub_key) := by
  obtain ⟨hp2, hpU, hn2, hnU⟩ := hc
  unfold Signature.raw_verifyC Signature.raw_verify
  simp only [JacobianPoint.multiplyC_some ⟨hp2, hpU, hn2, hnU⟩,
             JacobianPoint.addC_some ⟨hp2, hpU, hn2, hnU⟩,
             JacobianPoint.from_jacobianC_some ⟨hp2, hpU, hn2, hnU⟩,
             div_modC_some hn2 hnU.le, bindNB_some, bindJB_some, bindAB_some]

/-! ## Splitting the fast ladder into chunks

`jac_mul_loopF_split` lets a 256-iteration ladder be evaluated as eight
32-iteration chunks, keeping every kernel reduction shallow. -/

theorem jac_mul_loopF_succ (c : SECP256) (s : JacobianPoint) (k f : Nat)
    (r : JacobianPoint) :
    jac_mul_loopF c s k (f + 1) r =
      jac_mul_loopF c s k f
        (if k.testBit f then (r.doubleFp c).addFp c s else r.doubleFp c) := rfl

theorem jac_mul_loopF_split (c : SECP256) (s : JacobianPoint) (k f : Nat) :
    ∀ (g : Nat) (r : JacobianPoint),
      jac_mul_loopF c s k (f + g) r =
        jac_mul_loopF c s k f (jac_mul_loopF c s (k >>> f) g r) := by
  intro g
  induction g with
  | zero => intro r; rfl
  | succ g ih =>
    intro r
    have h1 : f + (g + 1) = (f + g) + 1 := rfl
    rw [h1, jac_mul_loopF_succ, ih, jac_mul_loopF_succ]
    rw [Nat.testBit_shiftRight]

/-! ## `n * G` is the identity sentinel: chunked evaluation -/

theorem K1_good : GoodCurve K1 := by decide

theorem R1_good : GoodCurve R1 := by decide

theorem nG_K1_chunk1 :
    jac_mul_loopF K1 K1.g.to_jacobian (K1.n >>> 224) 32
      (⟨0x0, 0x0, 0x1⟩ : JacobianPoint) = ⟨0x69ca7ffbe1446d9587f01cf969ff2cf8a73b991794c75c9b66b2060dfcc1093b, 0xcf6c3396d0d7152650369f6b2668b98dd24a2c1d00bfeca11148e41dbd492aa9, 0xd6b5a08bd2d80f0f001dfa79a33f159f4a6f5ae4802f9e08439894cad00302ee⟩ := by
  decide

theorem nG_K1_chunk2 :
    jac_mul_loopF K1 K1.g.to_jacobian (K1.n >>> 192) 32
      (⟨0x69ca7ffbe1446d9587f01cf969ff2cf8a73b991794c75c9b66b2060dfcc1093b, 0xcf6c3396d0d7152650369f6b2668b98dd24a2c1d00bfeca11148e41dbd492aa9, 0xd6b5a08bd2d80f0f001dfa79a33f159f4a6f5ae4802f9e08439894cad00302ee⟩ : JacobianPoint) = ⟨0x8ec6a04965de97f0c4b5061713826facad40d339264b1058dad762d2fe011769, 0x267e0f70e8098c942b55b7b2eaa9080c0f37b21922bcf92e20ed33f5347fba8e, 0x5ba5105de0d4efad7693d5192f029cf07a111456e5ae70cc7e586936756b6edf⟩ := by
  decide

theorem nG_K1_chunk3 :
    jac_mul_loopF K1 K1.g.to_jacobian (K1.n >>> 160) 32
      (⟨0x8ec6a04965de97f0c4b5061713826facad40d339264b1058dad762d2fe011769, 0x267e0f70e8098c942b55b7b2eaa9080c0f37b21922bcf92e20ed33f5347fba8e, 0x5ba5105de0d4efad7693d5192f029cf07a111456e5ae70cc7e586936756b6edf⟩ : JacobianPoint) = ⟨0xb87bc9734b175f0ae8fea9104e9c28b663f159c2c97b4f56824da62e435caec, 0x6c3fa707bee46db0afcfdbd91273693700e093ef161ded7414ad76982773698a, 0xc64547f21f73411b1ff1b0f7027f4a03ac709e676290649f657d81441e5000d1⟩ := by
  decide

theorem nG_K1_chunk4 :
    jac_mul_loopF K1 K1.g.to_jacobian (K1.n >>> 128) 32
      (⟨0xb87bc9734b175f0ae8fea9104e9c28b663f159c2c97b4f56824da62e435caec, 0x6c3fa707bee46db0afcfdbd91273693700e093ef161ded7414ad76982773698a, 0xc64547f21f73411b1ff1b0f7027f4a03ac709e676290649f657d81441e5000d1⟩ : JacobianPoint) = ⟨0x7ca0207f41116885b57cd36356f8d7291074f66178a34cc92502041b71070773, 0xe8aea78500397bd28807ef7e4abbca4089b6d91b175724406950288c4f7d8ec1, 0x936ecbd87212b4341ad1a04af29f9a6ea42141e3c1d31a9c49685432b92603b7⟩ := by
  decide

theorem nG_K1_chunk5 :
    jac_mul_loopF K1 K1.g.to_jacobian (K1.n >>> 96) 32
      (⟨0x7ca0207f41116885b57cd36356f8d7291074f66178a34cc92502041b71070773, 0xe8aea78500397bd28807ef7e4abbca4089b6d91b175724406950288c4f7d8ec1, 0x936ecbd87212b4341ad1a04af29f9a6ea42141e3c1d31a9c49685432b92603b7⟩ : JacobianPoint) = ⟨0x3f314a423928c01c12c53c48804b576cee75d6ad7ef2ae0aa653f3b1255f4d8b, 0x3dd6702dfe0c8815c699fdc70fba1fe01e61a637b6b00612ea7f4b490f65d0e, 0x20153c8873df81fe3b1657ec4e0d1123921c853ffef8bba83412315ef3316b23⟩ := by
  decide

theorem nG_K1_chunk6 :
    jac_mul_loopF K1 K1.g.to_jacobian (K1.n >>> 64) 32
      (⟨0x3f314a423928c01c12c53c48804b576cee75d6ad7ef2ae0aa653f3b1255f4d8b, 0x3dd6702dfe0c8815c699fdc70fba1fe01e61a637b6b00612ea7f4b490f65d0e, 0x20153c8873df81fe3b1657ec4e0d1123921c853ffef8bba83412315ef3316b23⟩ : JacobianPoint) = ⟨0x57d5c789af5aa1842a9528e276e428f635a7f2d9b091969ba8db9e68e860c546, 0x5271402d2fb6c10453328d5f22e273f5cf324aa1021de44b6ea349410554c1af, 0x3aae56695aa14977ffad831ac21cbc37248bf5f591172bc52d2fe369ed162e39⟩ := by
  decide

theorem nG_K1_chunk7 :
    jac_mul_loopF K1 K1.g.to_jacobian (K1.n >>> 32) 32
      (⟨0x57d5c789af5aa1842a9528e276e428f635a7f2d9b091969ba8db9e68e860c546, 0x5271402d2fb6c10453328d5f22e273f5cf324aa1021de44b6ea349410554c1af, 0x3aae56695aa14977ffad831ac21cbc37248bf5f591172bc52d2fe369ed162e39⟩ : JacobianPoint) = ⟨0xd7294ffcaa19b2baa62757cf6fb6c9407b9a3c059531a050c3ae18e5fb84ce97, 0x7600b2bd9acf1c6188ada0031385c0c5291a477102fca49c999bd90a1db11be1, 0x72fe0141902d2476034f849055e927c93b01a75a548d0e43b35af9baf3f475e6⟩ := by
  decide

theorem nG_K1_chunk8 :
    jac_mul_loopF K1 K1.g.to_jacobian K1.n 32
      (⟨0xd7294ffcaa19b2baa62757cf6fb6c9407b9a3c059531a050c3ae18e5fb84ce97, 0x7600b2bd9acf1c6188ada0031385c0c5291a477102fca49c999bd90a1db11be1, 0x72fe0141902d2476034f849055e927c93b01a75a548d0e43b35af9baf3f475e6⟩ : JacobianPoint) = ⟨0x0, 0x0, 0x1⟩ := by
  decide

theorem nG_K1_fast :
    jac_mul_loopF K1 K1.g.to_jacobian K1.n 256 JacobianPoint.zero_point
      = JacobianPoint.zero_point := by
  rw [show (JacobianPoint.zero_point : JacobianPoint) = ⟨0x0, 0x0, 0x1⟩ from rfl]
  have h1 : jac_mul_loopF K1 K1.g.to_jacobian K1.n 256
      (⟨0x0, 0x0, 0x1⟩ : JacobianPoint)
      = jac_mul_loopF K1 K1.g.to_jacobian K1.n 224
          (jac_mul_loopF K1 K1.g.to_jacobian (K1.n >>> 224) 32
            (⟨0x0, 0x0, 0x1⟩ : JacobianPoint)) :=
    jac_mul_loopF_split K1 K1.g.to_jacobian K1.n 224 32 _
  rw [h1, nG_K1_chunk1]
  have h2 : jac_mul_loopF K1 K1.g.to_jacobian K1.n 224
      (⟨0x69ca7ffbe1446d9587f01cf969ff2cf8a73b991794c75c9b66b2060dfcc1093b, 0xcf6c3396d0d7152650369f6b2668b98dd24a2c1d00bfeca11148e41dbd492aa9, 0xd6b5a08bd2d80f0f001dfa79a33f159f4a6f5ae4802f9e08439894cad00302ee⟩ : JacobianPoint)
      = jac_mul_loopF K1 K1.g.to_jacobian K1.n 192
          (jac_mul_loopF K1 K1.g.to_jacobian (K1.n >>> 192) 32
            (⟨0x69ca7ffbe1446d9587f01cf969ff2cf8a73b991794c75c9b66b2060dfcc1093b, 0xcf6c3396d0d7152650369f6b2668b98dd24a2c1d00bfeca11148e41dbd492aa9, 0xd6b5a08bd2d80f0f001dfa79a33f159f4a6f5ae4802f9e08439894cad00302ee⟩ : JacobianPoint)) :=
    jac_mul_loopF_split K1 K1.g.to_jacobian K1.n 192 32 _
  rw [h2, nG_K1_chunk2]
  have h3 : jac_mul_loopF K1 K1.g.to_jacobian K1.n 192
      (⟨0x8ec6a04965de97f0c4b5061713826facad40d339264b1058dad762d2fe011769, 0x267e0f70e8098c942b55b7b2eaa9080c0f37b21922bcf92e20ed33f5347fba8e, 0x5ba5105de0d4efad7693d5192f029cf07a111456e5ae70cc7e586936756b6edf⟩ : JacobianPoint)
      = jac_mul_loopF K1 K1.g.to_jacobian K1.n 160
          (jac_mul_loopF K1 K1.g.to_jacobian (K1.n >>> 160) 32
            (⟨0x8ec6a04965de97f0c4b5061713826facad40d339264b1058dad762d2fe011769, 0x267e0f70e8098c942b55b7b2eaa9080c0f37b21922bcf92e20ed33f5347fba8e, 0x5ba5105de0d4efad7693d5192f029cf07a111456e5ae70cc7e586936756b6edf⟩ : JacobianPoint)) :=
    jac_mul_loopF_split K1 K1.g.to_jacobian K1.n 160 32 _
  rw [h3, nG_K1_chunk3]
  have h4 : jac_mul_loopF K1 K1.g.to_jacobian K1.n 160
      (⟨0xb87bc9734b175f0ae8fea9104e9c28b663f159c2c97b4f56824da62e435caec, 0x6c3fa707bee46db0afcfdbd91273693700e093ef161ded7414ad76982773698a, 0xc64547f21f73411b1ff1b0f7027f4a03ac709e676290649f657d81441e5000d1⟩ : JacobianPoint)
      = jac_mul_loopF K1 K1.g.to_jacobian K1.n 128
          (jac_mul_loopF K1 K1.g.to_jacobian (K1.n >>> 128) 32
            (⟨0xb87bc9734b175f0ae8fea9104e9c28b663f159c2c97b4f56824da62e435caec, 0x6c3fa707bee46db0afcfdbd91273693700e093ef161ded7414ad76982773698a, 0xc64547f21f73411b1ff1b0f7027f4a03ac709e676290649f657d81441e5000d1⟩ : JacobianPoint)) :=
    jac_mul_loopF_split K1 K1.g.to_jacobian K1.n 128 32 _
  rw [h4, nG_K1_chunk4]
  have h5 : jac_mul_loopF K1 K1.g.to_jacobian K1.n 128
      (⟨0x7ca0207f41116885b57cd36356f8d7291074f66178a34cc92502041b71070773, 0xe8aea78500397bd28807ef7e4abbca4089b6d91b175724406950288c4f7d8ec1, 0x936ecbd87212b4341ad1a04af29f9a6ea42141e3c1d31a9c49685432b92603b7⟩ : JacobianPoint)
      = jac_mul_loopF K1 K1.g.to_jacobian K1.n 96
          (jac_mul_loopF K1 K1.g.to_jacobian (K1.n >>> 96) 32
            (⟨0x7ca0207f41116885b57cd36356f8d7291074f66178a34cc92502041b71070773, 0xe8aea78500397bd28807ef7e4abbca4089b6d91b175724406950288c4f7d8ec1, 0x936ecbd87212b4341ad1a04af29f9a6ea42141e3c1d31a9c49685432b92603b7⟩ : JacobianPoint)) :=
    jac_mul_loopF_split K1 K1.g.to_jacobian K1.n 96 32 _
  rw [h5, nG_K1_chunk5]
  have h6 : jac_mul_loopF K1 K1.g.to_jacobian K1.n 96
      (⟨0x3f314a423928c01c12c53c48804b576cee75d6ad7ef2ae0aa653f3b1255f4d8b, 0x3dd6702dfe0c8815c699fdc70fba1fe01e61a637b6b00612ea7f4b490f65d0e, 0x20153c8873df81fe3b1657ec4e0d1123921c853ffef8bba83412315ef3316b23⟩ : JacobianPoint)
      = jac_mul_loopF K1 K1.g.to_jacobian K1.n 64
          (jac_mul_loopF K1 K1.g.to_jacobian (K1.n >>> 64) 32
            (⟨0x3f314a423928c01c12c53c48804b576cee75d6ad7ef2ae0aa653f3b1255f4d8b, 0x3dd6702dfe0c8815c699fdc70fba1fe01e61a637b6b00612ea7f4b490f65d0e, 0x20153c8873df81fe3b1657ec4e0d1123921c853ffef8bba83412315ef3316b23⟩ : JacobianPoint)) :=
    jac_mul_loopF_split K1 K1.g.to_jacobian K1.n 64 32 _
  rw [h6, nG_K1_chunk6]
  have h7 : jac_mul_loopF K1 K1.g.to_jacobian K1.n 64
      (⟨0x57d5c789af5aa1842a9528e276e428f635a7f2d9b091969ba8db9e68e860c546, 0x5271402d2fb6c10453328d5f22e273f5cf324aa1021de44b6ea349410554c1af, 0x3aae56695aa14977ffad831ac21cbc37248bf5f591172bc52d2fe369ed162e39⟩ : JacobianPoint)
      = jac_mul_loopF K1 K1.g.to_jacobian K1.n 32
          (jac_mul_loopF K1 K1.g.to_jacobian (K1.n >>> 32) 32
            (⟨0x57d5c789af5aa1842a9528e276e428f635a7f2d9b091969ba8db9e68e860c546, 0x5271402d2fb6c10453328d5f22e273f5cf324aa1021de44b6ea349410554c1af, 0x3aae56695aa14977ffad831ac21cbc37248bf5f591172bc52d2fe369ed162e39⟩ : JacobianPoint)) :=
    jac_mul_loopF_split K1 K1.g.to_jacobian K1.n 32 32 _
  rw [h7, nG_K1_chunk7]
  rw [nG_K1_chunk8]

theorem nG_R1_chunk1 :
    jac_mul_loopF R1 R1.g.to_jacobian (R1.n >>> 224) 32
      (⟨0x0, 0x0, 0x1⟩ : JacobianPoint) = ⟨0xba79977a82bd2b7ca116ad59a4640d6aba046b03ece53d92ae77378f4536b7ac, 0x968f1536dc24044b7de2bc00678d37a0de13ae9f5f5f5e238d011d322e8d1067, 0x89a2c90a67818f2606f729ba23bb9d216eb7405f2777792095e0dce881a654f⟩ := by
  decide

theorem nG_R1_chunk2 :
    jac_mul_loopF R1 R1.g.to_jacobian (R1.n >>> 192) 32
      (⟨0xba79977a82bd2b7ca116ad59a4640d6aba046b03ece53d92ae77378f4536b7ac, 0x968f1536dc24044b7de2bc00678d37a0de13ae9f5f5f5e238d011d322e8d1067, 0x89a2c90a67818f2606f729ba23bb9d216eb7405f2777792095e0dce881a654f⟩ : JacobianPoint) = ⟨0xbeb7907f5a4469fe20af2dcd8ae6faf3dd81e7c2c0859b55f045352431f64606, 0x8659b86291d273517f788beb97411434e80ab1ce9203ece271fb4934a3587b93, 0x1554de595b05f7b60188fa90aee8f3d2475aef78d623b1c5641e8c2c82639915⟩ := by
  decide

theorem nG_R1_chunk3 :
    jac_mul_loopF R1 R1.g.to_jacobian (R1.n >>> 160) 32
      (⟨0xbeb7907f5a4469fe20af2dcd8ae6faf3dd81e7c2c0859b55f045352431f64606, 0x8659b86291d273517f788beb97411434e80ab1ce9203ece271fb4934a3587b93, 0x1554de595b05f7b60188fa90aee8f3d2475aef78d623b1c5641e8c2c82639915⟩ : JacobianPoint) = ⟨0xd5282804a454ba129b7ae7a87cc93a69edafe790997b223237be7823f14a30e0, 0x2a28c09db82aadc15a00bf9fc3dba5a4f2670b773472ea05d8c75211b4168d70, 0xd75e60764bf47ed7294aeeb8f535cc4cc1bbf36138546006112b17a7ef2e0dec⟩ := by
  decide

theorem nG_R1_chunk4 :
    jac_mul_loopF R1 R1.g.to_jacobian (R1.n >>> 128) 32
      (⟨0xd5282804a454ba129b7ae7a87cc93a69edafe790997b223237be7823f14a30e0, 0x2a28c09db82aadc15a00bf9fc3dba5a4f2670b773472ea05d8c75211b4168d70, 0xd75e60764bf47ed7294aeeb8f535cc4cc1bbf36138546006112b17a7ef2e0dec⟩ : JacobianPoint) = ⟨0xe478279d9e3a72d1dc79e1b1db2c2ce2ad18fea937d6eee6069785c8ed4b7b81, 0x7ba6b6efe7dc6129112f87cd7e07805186a51297b4d51ca5343a3ff4f84685ba, 0xb12186b79607b54b71d8ff619c99bca0ced706b1719c1336b069745633e1537d⟩ := by
  decide

theorem nG_R1_chunk5 :
    jac_mul_loopF R1 R1.g.to_jacobian (R1.n >>> 96) 32
      (⟨0xe478279d9e3a72d1dc79e1b1db2c2ce2ad18fea937d6eee6069785c8ed4b7b81, 0x7ba6b6efe7dc6129112f87cd7e07805186a51297b4d51ca5343a3ff4f84685ba, 0xb12186b79607b54b71d8ff619c99bca0ced706b1719c1336b069745633e1537d⟩ : JacobianPoint) = ⟨0xef695c1664d2937e5df97d60c5d483b2123ed81a80bccaa0f4210f9c53d889b5, 0x2b6af73d38f2f4b19b104bb4564473c38d4b82a71bcac28c8f05fd1d0805e761, 0xb51cef3661f3e0288e32eefb637c3110187fc6703e9bc290bb39a236ef6a1230⟩ := by
  decide

theorem nG_R1_chunk6 :
    jac_mul_loopF R1 R1.g.to_jacobian (R1.n >>> 64) 32
      (⟨0xef695c1664d2937e5df97d60c5d483b2123ed81a80bccaa0f4210f9c53d889b5, 0x2b6af73d38f2f4b19b104bb4564473c38d4b82a71bcac28c8f05fd1d0805e761, 0xb51cef3661f3e0288e32eefb637c3110187fc6703e9bc290bb39a236ef6a1230⟩ : JacobianPoint) = ⟨0x9fa916eee0cd9b1ff494941fca59819323affbd8edfda7e0bfcf5eb8ad07ba7c, 0x9b4744f3ff0897d76db1e55b878fe3615b2ff099fe57a8dc902c3656a08de4b7, 0x1a5c473149e737fbd54d8c80cc0e9c0be236e8ae5f56b2b6d216bede465b3af3⟩ := by
  decide

theorem nG_R1_chunk7 :
    jac_mul_loopF R1 R1.g.to_jacobian (R1.n >>> 32) 32
      (⟨0x9fa916eee0cd9b1ff494941fca59819323affbd8edfda7e0bfcf5eb8ad07ba7c, 0x9b4744f3ff0897d76db1e55b878fe3615b2ff099fe57a8dc902c3656a08de4b7, 0x1a5c473149e737fbd54d8c80cc0e9c0be236e8ae5f56b2b6d216bede465b3af3⟩ : JacobianPoint) = ⟨0xd7449d3717e21bded885f344b7b160342c3fb15535f5620e369f5c9ecb5eabe2, 0xd444ca2c483d9f592d54694a5dcf7ad25848c6a51cd84ae9a6e3621059217b09, 0xdcf4a0a912644853fc46e0aca51c9578e7f18ca474689ebc94391ea6f4a42e85⟩ := by
  decide

theorem nG_R1_chunk8 :
    jac_mul_loopF R1 R1.g.to_jacobian R1.n 32
      (⟨0xd7449d3717e21bded885f344b7b160342c3fb15535f5620e369f5c9ecb5eabe2, 0xd444ca2c483d9f592d54694a5dcf7ad25848c6a51cd84ae9a6e3621059217b09, 0xdcf4a0a912644853fc46e0aca51c9578e7f18ca474689ebc94391ea6f4a42e85⟩ : JacobianPoint) = ⟨0x0, 0x0, 0x1⟩ := by
  decide

theorem nG_R1_fast :
    jac_mul_loopF R1 R1.g.to_jacobian R1.n 256 JacobianPoint.zero_point
      = JacobianPoint.zero_point := by
  rw [show (JacobianPoint.zero_point : JacobianPoint) = ⟨0x0, 0x0, 0x1⟩ from rfl]
  have h1 : jac_mul_loopF R1 R1.g.to_jacobian R1.n 256
      (⟨0x0, 0x0, 0x1⟩ : JacobianPoint)
      = jac_mul_loopF R1 R1.g.to_jacobian R1.n 224
          (jac_mul_loopF R1 R1.g.to_jacobian (R1.n >>> 224) 32
            (⟨0x0, 0x0, 0x1⟩ : JacobianPoint)) :=
    jac_mul_loopF_split R1 R1.g.to_jacobian R1.n 224 32 _
  rw [h1, nG_R1_chunk1]
  have h2 : jac_mul_loopF R1 R1.g.to_jacobian R1.n 224
      (⟨0xba79977a82bd2b7ca116ad59a4640d6aba046b03ece53d92ae77378f4536b7ac, 0x968f1536dc24044b7de2bc00678d37a0de13ae9f5f5f5e238d011d322e8d1067, 0x89a2c90a67818f2606f729ba23bb9d216eb7405f2777792095e0dce881a654f⟩ : JacobianPoint)
      = jac_mul_loopF R1 R1.g.to_jacobian R1.n 192
          (jac_mul_loopF R1 R1.g.to_jacobian (R1.n >>> 192) 32
            (⟨0xba79977a82bd2b7ca116ad59a4640d6aba046b03ece53d92ae77378f4536b7ac, 0x968f1536dc24044b7de2bc00678d37a0de13ae9f5f5f5e238d011d322e8d1067, 0x89a2c90a67818f2606f729ba23bb9d216eb7405f2777792095e0dce881a654f⟩ : JacobianPoint)) :=
    jac_mul_loopF_split R1 R1.g.to_jacobian R1.n 192 32 _
  rw [h2, nG_R1_chunk2]
  have h3 : jac_mul_loopF R1 R1.g.to_jacobian R1.n 192
      (⟨0xbeb7907f5a4469fe20af2dcd8ae6faf3dd81e7c2c0859b55f045352431f64606, 0x8659b86291d273517f788beb97411434e80ab1ce9203ece271fb4934a3587b93, 0x1554de595b05f7b60188fa90aee8f3d2475aef78d623b1c5641e8c2c82639915⟩ : JacobianPoint)
      = jac_mul_loopF R1 R1.g.to_jacobian R1.n 160
          (jac_mul_loopF R1 R1.g.to_jacobian (R1.n >>> 160) 32
            (⟨0xbeb7907f5a4469fe20af2dcd8ae6faf3dd81e7c2c0859b55f045352431f64606, 0x8659b86291d273517f788beb97411434e80ab1ce9203ece271fb4934a3587b93, 0x1554de595b05f7b60188fa90aee8f3d2475aef78d623b1c5641e8c2c82639915⟩ : JacobianPoint)) :=
    jac_mul_loopF_split R1 R1.g.to_jacobian R1.n 160 32 _
  rw [h3, nG_R1_chunk3]
  have h4 : jac_mul_loopF R1 R1.g.to_jacobian R1.n 160
      (⟨0xd5282804a454ba129b7ae7a87cc93a69edafe790997b223237be7823f14a30e0, 0x2a28c09db82aadc15a00bf9fc3dba5a4f2670b773472ea05d8c75211b4168d70, 0xd75e60764bf47ed7294aeeb8f535cc4cc1bbf36138546006112b17a7ef2e0dec⟩ : JacobianPoint)
      = jac_mul_loopF R1 R1.g.to_jacobian R1.n 128
          (jac_mul_loopF R1 R1.g.to_jacobian (R1.n >>> 128) 32
            (⟨0xd5282804a454ba129b7ae7a87cc93a69edafe790997b223237be7823f14a30e0, 0x2a28c09db82aadc15a00bf9fc3dba5a4f2670b773472ea05d8c75211b4168d70, 0xd75e60764bf47ed7294aeeb8f535cc4cc1bbf36138546006112b17a7ef2e0dec⟩ : JacobianPoint)) :=
    jac_mul_loopF_split R1 R1.g.to_jacobian R1.n 128 32 _
  rw [h4, nG_R1_chunk4]
  have h5 : jac_mul_loopF R1 R1.g.to_jacobian R1.n 128
      (⟨0xe478279d9e3a72d1dc79e1b1db2c2ce2ad18fea937d6eee6069785c8ed4b7b81, 0x7ba6b6efe7dc6129112f87cd7e07805186a51297b4d51ca5343a3ff4f84685ba, 0xb12186b79607b54b71d8ff619c99bca0ced706b1719c1336b069745633e1537d⟩ : JacobianPoint)
      = jac_mul_loopF R1 R1.g.to_jacobian R1.n 96
          (jac_mul_loopF R1 R1.g.to_jacobian (R1.n >>> 96) 32
            (⟨0xe478279d9e3a72d1dc79e1b1db2c2ce2ad18fea937d6eee6069785c8ed4b7b81, 0x7ba6b6efe7dc6129112f87cd7e07805186a51297b4d51ca5343a3ff4f84685ba, 0xb12186b79607b54b71d8ff619c99bca0ced706b1719c1336b069745633e1537d⟩ : JacobianPoint)) :=
    jac_mul_loopF_split R1 R1.g.to_jacobian R1.n 96 32 _
  rw [h5, nG_R1_chunk5]
  have h6 : jac_mul_loopF R1 R1.g.to_jacobian R1.n 96
      (⟨0xef695c1664d2937e5df97d60c5d483b2123ed81a80bccaa0f4210f9c53d889b5, 0x2b6af73d38f2f4b19b104bb4564473c38d4b82a71bcac28c8f05fd1d0805e761, 0xb51cef3661f3e0288e32eefb637c3110187fc6703e9bc290bb39a236ef6a1230⟩ : JacobianPoint)
      = jac_mul_loopF R1 R1.g.to_jacobian R1.n 64
          (jac_mul_loopF R1 R1.g.to_jacobian (R1.n >>> 64) 32
            (⟨0xef695c1664d2937e5df97d60c5d483b2123ed81a80bccaa0f4210f9c53d889b5, 0x2b6af73d38f2f4b19b104bb4564473c38d4b82a71bcac28c8f05fd1d0805e761, 0xb51cef3661f3e0288e32eefb637c3110187fc6703e9bc290bb39a236ef6a1230⟩ : JacobianPoint)) :=
    jac_mul_loopF_split R1 R1.g.to_jacobian R1.n 64 32 _
  rw [h6, nG_R1_chunk6]
  have h7 : jac_mul_loopF R1 R1.g.to_jacobian R1.n 64
      (⟨0x9fa916eee0cd9b1ff494941fca59819323affbd8edfda7e0bfcf5eb8ad07ba7c, 0x9b4744f3ff0897d76db1e55b878fe3615b2ff099fe57a8dc902c3656a08de4b7, 0x1a5c473149e737fbd54d8c80cc0e9c0be236e8ae5f56b2b6d216bede465b3af3⟩ : JacobianPoint)
      = jac_mul_loopF R1 R1.g.to_jacobian R1.n 32
          (jac_mul_loopF R1 R1.g.to_jacobian (R1.n >>> 32) 32
            (⟨0x9fa916eee0cd9b1ff494941fca59819323affbd8edfda7e0bfcf5eb8ad07ba7c, 0x9b4744f3ff0897d76db1e55b878fe3615b2ff099fe57a8dc902c3656a08de4b7, 0x1a5c473149e737fbd54d8c80cc0e9c0be236e8ae5f56b2b6d216bede465b3af3⟩ : JacobianPoint)) :=
    jac_mul_loopF_split R1 R1.g.to_jacobian R1.n 32 32 _
  rw [h7, nG_R1_chunk7]
  rw [nG_R1_chunk8]

/-- Unfolding `multiplyFp` to its ladder on the non-shortcut path,
without evaluating anything. -/
theorem JacobianPoint.multiplyFp_eq_loop (c : SECP256) (s : JacobianPoint)
    (k : Nat) (hy : s.y ≠ 0) (hk0 : k ≠ 0) (hk1 : k ≠ 1) :
    s.multiplyFp c k = jac_mul_loopF c s k 256 JacobianPoint.zero_point := by
  simp [JacobianPoint.multiplyFp, hy, hk0, hk1]

/-- `n · G` through the model Jacobian ladder, converted to affine, is the
`(0, 0)` sentinel (secp256k1). -/
theorem nG_K1 :
    ((K1.g.to_jacobian).multiply K1 K1.n).from_jacobian K1
      = ECAffinePoint.zero_point := by
  rw [JacobianPoint.multiply_eqF K1_good, JacobianPoint.from_jacobian_eqF K1_good]
  rw [JacobianPoint.multiplyFp_eq_loop K1 K1.g.to_jacobian K1.n
        (by decide) (by decide) (by decide)]
  rw [nG_K1_fast]
  decide

/-- `n · G` through the model Jacobian ladder, converted to affine, is the
`(0, 0)` sentinel (secp256r1). -/
theorem nG_R1 :
    ((R1.g.to_jacobian).multiply R1 R1.n).from_jacobian R1
      = ECAffinePoint.zero_point := by
  rw [JacobianPoint.multiply_eqF R1_good, JacobianPoint.from_jacobian_eqF R1_good]
  rw [JacobianPoint.multiplyFp_eq_loop R1 R1.g.to_jacobian R1.n
        (by decide) (by decide) (by decide)]
  rw [nG_R1_fast]
  decide


/-! ## The affine ladder at `n * G`: chunked evaluation

The affine `multiply` applied to `(G, n)` runs the same double-and-add
ladder with affine formulas; its final iteration adds `G` to
`(n - 1) * G = (G.x, p - G.y)`, a degenerate equal-abscissa case in which
the slope divides by `x1 - x2 = 0`, the Fermat "inverse" of `0` is `0`,
and the result is a garbage non-identity point. The same chunked
evaluation strategy as for the Jacobian ladder settles its exact value. -/

theorem af_mul_loopF_succ (c : SECP256) (s : ECAffinePoint) (k f : Nat)
    (r : ECAffinePoint) :
    af_mul_loopF c s k (f + 1) r =
      af_mul_loopF c s k f
        (if k.testBit f then (r.doubleFp c).addFp c s else r.doubleFp c) := rfl

theorem af_mul_loopF_split (c : SECP256) (s : ECAffinePoint) (k f : Nat) :
    ∀ (g : Nat) (r : ECAffinePoint),
      af_mul_loopF c s k (f + g) r =
        af_mul_loopF c s k f (af_mul_loopF c s (k >>> f) g r) := by
  intro g
  induction g with
  | zero => intro r; rfl
  | succ g ih =>
    intro r
    have h1 : f + (g + 1) = (f + g) + 1 := rfl
    rw [h1, af_mul_loopF_succ, ih, af_mul_loopF_succ]
    rw [Nat.testBit_shiftRight]

theorem af_nG_K1_chunk1 :
    af_mul_loopF K1 K1.g (K1.n >>> 224) 32
      ((⟨0x0, 0x0⟩ : ECAffinePoint)) = ⟨0xba7e7b78e1ff713857bcc6432dcee5f7c6ca7fc8f84af479811bcabec921305e, 0x9af35ca9e7eb93ee3a3dbe010e3c2ca3522a78c826e0d8bf2942dc057e7c48ac⟩ := by
  decide

theorem af_nG_K1_chunk2 :
    af_mul_loopF K1 K1.g (K1.n >>> 192) 32
      ((⟨0xba7e7b78e1ff713857bcc6432dcee5f7c6ca7fc8f84af479811bcabec921305e, 0x9af35ca9e7eb93ee3a3dbe010e3c2ca3522a78c826e0d8bf2942dc057e7c48ac⟩ : ECAffinePoint)) = ⟨0x30de2c8bc2010aaebbb647c5bac00eb8028f78d795f2cd4532bc6c504c0e01e7, 0xc0d5c28aaf23d4094cbd1cfe466cc43bcd0de0f04f6eaf0ed010e43e8d02ead9⟩ := by
  decide

theorem af_nG_K1_chunk3 :
    af_mul_loopF K1 K1.g (K1.n >>> 160) 32
      ((⟨0x30de2c8bc2010aaebbb647c5bac00eb8028f78d795f2cd4532bc6c504c0e01e7, 0xc0d5c28aaf23d4094cbd1cfe466cc43bcd0de0f04f6eaf0ed010e43e8d02ead9⟩ : ECAffinePoint)) = ⟨0xb75b8dec5aaf789530791e32dd90d045119a8eeea1f46cba155b1e7152ee655, 0xfe65de0041fa94bb8e951f8a45aff0c3fafebe0f22b2ce426e3e955994650a76⟩ := by
  decide

theorem af_nG_K1_chunk4 :
    af_mul_loopF K1 K1.g (K1.n >>> 128) 32
      ((⟨0xb75b8dec5aaf789530791e32dd90d045119a8eeea1f46cba155b1e7152ee655, 0xfe65de0041fa94bb8e951f8a45aff0c3fafebe0f22b2ce426e3e955994650a76⟩ : ECAffinePoint)) = ⟨0x97de6003a550284732d1c7fa7db3083ba4245faad278cec04faea50454211e63, 0xe250f63a1b3f2710a409af09a04f8c8207c3ab50e81c3cd62f25c1eb8d86d3f5⟩ := by
  decide

theorem af_nG_K1_chunk5 :
    af_mul_loopF K1 K1.g (K1.n >>> 96) 32
      ((⟨0x97de6003a550284732d1c7fa7db3083ba4245faad278cec04faea50454211e63, 0xe250f63a1b3f2710a409af09a04f8c8207c3ab50e81c3cd62f25c1eb8d86d3f5⟩ : ECAffinePoint)) = ⟨0x6875495401a76dadc19220b0da504a054f7a470b9de35fc9aa385ca9683b1a7f, 0x5f04e25cb19d290a14c25e38ed7d03d288b53fba8815f4bf1e8acb22d182f2e⟩ := by
  decide

theorem af_nG_K1_chunk6 :
    af_mul_loopF K1 K1.g (K1.n >>> 64) 32
      ((⟨0x6875495401a76dadc19220b0da504a054f7a470b9de35fc9aa385ca9683b1a7f, 0x5f04e25cb19d290a14c25e38ed7d03d288b53fba8815f4bf1e8acb22d182f2e⟩ : ECAffinePoint)) = ⟨0x28d168b81bc1b9c268f8b95e9e6d2ffd2005aaa5988c3ee25003248eb3741e07, 0x52d4f7a2a77b07f5146a3a4a175ce3613fca612b43d42599c30198eede3006d1⟩ := by
  decide

theorem af_nG_K1_chunk7 :
    af_mul_loopF K1 K1.g (K1.n >>> 32) 32
      ((⟨0x28d168b81bc1b9c268f8b95e9e6d2ffd2005aaa5988c3ee25003248eb3741e07, 0x52d4f7a2a77b07f5146a3a4a175ce3613fca612b43d42599c30198eede3006d1⟩ : ECAffinePoint)) = ⟨0x7510b3cb6e7dcff96e4ccb661b959a00524dde58ce83aec00ac8e4d627a6da61, 0xee3bae36ecb330bffbe41537b2faee168c6be58f1dbb5dfbcfc3032b6653a673⟩ := by
  decide

theorem af_nG_K1_chunk8 :
    af_mul_loopF K1 K1.g K1.n 32
      ((⟨0x7510b3cb6e7dcff96e4ccb661b959a00524dde58ce83aec00ac8e4d627a6da61, 0xee3bae36ecb330bffbe41537b2faee168c6be58f1dbb5dfbcfc3032b6653a673⟩ : ECAffinePoint)) = ⟨0xc8333020c4688a754bf3ad462f1e9f1fac80649a463ae4d4c1afd48d20fccff, 0x483ada7726a3c4655da4fbfc0e1108a8fd17b448a68554199c47d08ffb10d4b8⟩ := by
  decide

theorem af_nG_K1_fast :
    af_mul_loopF K1 K1.g K1.n 256 ECAffinePoint.zero_point
      = ⟨0xc8333020c4688a754bf3ad462f1e9f1fac80649a463ae4d4c1afd48d20fccff, 0x483ada7726a3c4655da4fbfc0e1108a8fd17b448a68554199c47d08ffb10d4b8⟩ := by
  rw [show (ECAffinePoint.zero_point : ECAffinePoint) = ⟨0x0, 0x0⟩ from rfl]
  have h1 : af_mul_loopF K1 K1.g K1.n 256
      ((⟨0x0, 0x0⟩ : ECAffinePoint))
      = af_mul_loopF K1 K1.g K1.n 224
          (af_mul_loopF K1 K1.g (K1.n >>> 224) 32
            ((⟨0x0, 0x0⟩ : ECAffinePoint))) :=
    af_mul_loopF_split K1 K1.g K1.n 224 32 _
  rw [h1, af_nG_K1_chunk1]
  have h2 : af_mul_loopF K1 K1.g K1.n 224
      ((⟨0xba7e7b78e1ff713857bcc6432dcee5f7c6ca7fc8f84af479811bcabec921305e, 0x9af35ca9e7eb93ee3a3dbe010e3c2ca3522a78c826e0d8bf2942dc057e7c48ac⟩ : ECAffinePoint))
      = af_mul_loopF K1 K1.g K1.n 192
          (af_mul_loopF K1 K1.g (K1.n >>> 192) 32
            ((⟨0xba7e7b78e1ff713857bcc6432dcee5f7c6ca7fc8f84af479811bcabec921305e, 0x9af35ca9e7eb93ee3a3dbe010e3c2ca3522a78c826e0d8bf2942dc057e7c48ac⟩ : ECAffinePoint))) :=
    af_mul_loopF_split K1 K1.g K1.n 192 32 _
  rw [h2, af_nG_K1_chunk2]
  have h3 : af_mul_loopF K1 K1.g K1.n 192
      ((⟨0x30de2c8bc2010aaebbb647c5bac00eb8028f78d795f2cd4532bc6c504c0e01e7, 0xc0d5c28aaf23d4094cbd1cfe466cc43bcd0de0f04f6eaf0ed010e43e8d02ead9⟩ : ECAffinePoint))
      = af_mul_loopF K1 K1.g K1.n 160
          (af_mul_loopF K1 K1.g (K1.n >>> 160) 32
            ((⟨0x30de2c8bc2010aaebbb647c5bac00eb8028f78d795f2cd4532bc6c504c0e01e7, 0xc0d5c28aaf23d4094cbd1cfe466cc43bcd0de0f04f6eaf0ed010e43e8d02ead9⟩ : ECAffinePoint))) :=
    af_mul_loopF_split K1 K1.g K1.n 160 32 _
  rw [h3, af_nG_K1_chunk3]
  have h4 : af_mul_loopF K1 K1.g K1.n 160
      ((⟨0xb75b8dec5aaf789530791e32dd90d045119a8eeea1f46cba155b1e7152ee655, 0xfe65de0041fa94bb8e951f8a45aff0c3fafebe0f22b2ce426e3e955994650a76⟩ : ECAffinePoint))
      = af_mul_loopF K1 K1.g K1.n 128
          (af_mul_loopF K1 K1.g (K1.n >>> 128) 32
            ((⟨0xb75b8dec5aaf789530791e32dd90d045119a8eeea1f46cba155b1e7152ee655, 0xfe65de0041fa94bb8e951f8a45aff0c3fafebe0f22b2ce426e3e955994650a76⟩ : ECAffinePoint))) :=
    af_mul_loopF_split K1 K1.g K1.n 128 32 _
  rw [h4, af_nG_K1_chunk4]
  have h5 : af_mul_loopF K1 K1.g K1.n 128
      ((⟨0x97de6003a550284732d1c7fa7db3083ba4245faad278cec04faea50454211e63, 0xe250f63a1b3f2710a409af09a04f8c8207c3ab50e81c3cd62f25c1eb8d86d3f5⟩ : ECAffinePoint))
      = af_mul_loopF K1 K1.g K1.n 96
          (af_mul_loopF K1 K1.g (K1.n >>> 96) 32
            ((⟨0x97de6003a550284732d1c7fa7db3083ba4245faad278cec04faea50454211e63, 0xe250f63a1b3f2710a409af09a04f8c8207c3ab50e81c3cd62f25c1eb8d86d3f5⟩ : ECAffinePoint))) :=
    af_mul_loopF_split K1 K1.g K1.n 96 32 _
  rw [h5, af_nG_K1_chunk5]
  have h6 : af_mul_loopF K1 K1.g K1.n 96
      ((⟨0x6875495401a76dadc19220b0da504a054f7a470b9de35fc9aa385ca9683b1a7f, 0x5f04e25cb19d290a14c25e38ed7d03d288b53fba8815f4bf1e8acb22d182f2e⟩ : ECAffinePoint))
      = af_mul_loopF K1 K1.g K1.n 64
          (af_mul_loopF K1 K1.g (K1.n >>> 64) 32
            ((⟨0x6875495401a76dadc19220b0da504a054f7a470b9de35fc9aa385ca9683b1a7f, 0x5f04e25cb19d290a14c25e38ed7d03d288b53fba8815f4bf1e8acb22d182f2e⟩ : ECAffinePoint))) :=
    af_mul_loopF_split K1 K1.g K1.n 64 32 _
  rw [h6, af_nG_K1_chunk6]
  have h7 : af_mul_loopF K1 K1.g K1.n 64
      ((⟨0x28d168b81bc1b9c268f8b95e9e6d2ffd2005aaa5988c3ee25003248eb3741e07, 0x52d4f7a2a77b07f5146a3a4a175ce3613fca612b43d42599c30198eede3006d1⟩ : ECAffinePoint))
      = af_mul_loopF K1 K1.g K1.n 32
          (af_mul_loopF K1 K1.g (K1.n >>> 32) 32
            ((⟨0x28d168b81bc1b9c268f8b95e9e6d2ffd2005aaa5988c3ee25003248eb3741e07, 0x52d4f7a2a77b07f5146a3a4a175ce3613fca612b43d42599c30198eede3006d1⟩ : ECAffinePoint))) :=
    af_mul_loopF_split K1 K1.g K1.n 32 32 _
  rw [h7, af_nG_K1_chunk7]
  rw [af_nG_K1_chunk8]

theorem af_nG_R1_chunk1 :
    af_mul_loopF R1 R1.g (R1.n >>> 224) 32
      ((⟨0x0, 0x0⟩ : ECAffinePoint)) = ⟨0x618466bcb739585c20c44b7fc962d8671d94867054859361a18293ffe4a720e1, 0x34587f80988db9bd798cb5da178ec512db9aec2fe35f85e0678b4e91f7c873b4⟩ := by
  decide

theorem af_nG_R1_chunk2 :
    af_mul_loopF R1 R1.g (R1.n >>> 192) 32
      ((⟨0x618466bcb739585c20c44b7fc962d8671d94867054859361a18293ffe4a720e1, 0x34587f80988db9bd798cb5da178ec512db9aec2fe35f85e0678b4e91f7c873b4⟩ : ECAffinePoint)) = ⟨0xb9cdba7bfd6dadb74e360dbd5aa41547daa0afb084de8807cd635be8e4398ffc, 0x6422e5623a2035b7f4c596afa4bde2261698be60c7b910bdeee0554b1882c80⟩ := by
  decide

theorem af_nG_R1_chunk3 :
    af_mul_loopF R1 R1.g (R1.n >>> 160) 32
      ((⟨0xb9cdba7bfd6dadb74e360dbd5aa41547daa0afb084de8807cd635be8e4398ffc, 0x6422e5623a2035b7f4c596afa4bde2261698be60c7b910bdeee0554b1882c80⟩ : ECAffinePoint)) = ⟨0xeb26590892332d8f2daa49906423fd6123641184e123c44519207317c49dfcf7, 0x9a5956c198b639c2dc64c68252d28cc674c2943144b78b2641d87d6e0a5f537e⟩ := by
  decide

theorem af_nG_R1_chunk4 :
    af_mul_loopF R1 R1.g (R1.n >>> 128) 32
      ((⟨0xeb26590892332d8f2daa49906423fd6123641184e123c44519207317c49dfcf7, 0x9a5956c198b639c2dc64c68252d28cc674c2943144b78b2641d87d6e0a5f537e⟩ : ECAffinePoint)) = ⟨0x8748c7d085779cd58a8899e9edeae71b210c293b42286c1cd5da5cd76d1d1bd3, 0xed9665185905b41dab7f4487caf56539c968ff826be42303b0d2bc6a71773d50⟩ := by
  decide

theorem af_nG_R1_chunk5 :
    af_mul_loopF R1 R1.g (R1.n >>> 96) 32
      ((⟨0x8748c7d085779cd58a8899e9edeae71b210c293b42286c1cd5da5cd76d1d1bd3, 0xed9665185905b41dab7f4487caf56539c968ff826be42303b0d2bc6a71773d50⟩ : ECAffinePoint)) = ⟨0x7fade2614d20c9cc0ad698edcef1f762c752675ae21c9f7ba24ed711e8fcba6a, 0x9f92dca5b9cca5118ca7fd381a4aa45ee30eb694113ed75aeb07d15c7fa4306f⟩ := by
  decide

theorem af_nG_R1_chunk6 :
    af_mul_loopF R1 R1.g (R1.n >>> 64) 32
      ((⟨0x7fade2614d20c9cc0ad698edcef1f762c752675ae21c9f7ba24ed711e8fcba6a, 0x9f92dca5b9cca5118ca7fd381a4aa45ee30eb694113ed75aeb07d15c7fa4306f⟩ : ECAffinePoint)) = ⟨0xeaef3f9397aa11eae181bcd301a4f0cd2cd3a385d7f55475ec244615723ffd73, 0xa7adfad21fd25aa843cc606fde459f266a68121774d939ffba876525f3cb6ff0⟩ := by
  decide

theorem af_nG_R1_chunk7 :
    af_mul_loopF R1 R1.g (R1.n >>> 32) 32
      ((⟨0xeaef3f9397aa11eae181bcd301a4f0cd2cd3a385d7f55475ec244615723ffd73, 0xa7adfad21fd25aa843cc606fde459f266a68121774d939ffba876525f3cb6ff0⟩ : ECAffinePoint)) = ⟨0x7e3f8eaca6488456837b5b12b757214e67461a2878852d4c721d386d569960b5, 0xe9d44c3e30e88bd1340ccd06ed2bd7e4b70477d64f850a2f5532ea4267057e5f⟩ := by
  decide

theorem af_nG_R1_chunk8 :
    af_mul_loopF R1 R1.g R1.n 32
      ((⟨0x7e3f8eaca6488456837b5b12b757214e67461a2878852d4c721d386d569960b5, 0xe9d44c3e30e88bd1340ccd06ed2bd7e4b70477d64f850a2f5532ea4267057e5f⟩ : ECAffinePoint)) = ⟨0x29d05c193da77b710e86323538b77e1b11f904fea42998be16bd8d744ece7ad3, 0x4fe342e2fe1a7f9b8ee7eb4a7c0f9e162bce33576b315ececbb6406837bf51f5⟩ := by
  decide

theorem af_nG_R1_fast :
    af_mul_loopF R1 R1.g R1.n 256 ECAffinePoint.zero_point
      = ⟨0x29d05c193da77b710e86323538b77e1b11f904fea42998be16bd8d744ece7ad3, 0x4fe342e2fe1a7f9b8ee7eb4a7c0f9e162bce33576b315ececbb6406837bf51f5⟩ := by
  rw [show (ECAffinePoint.zero_point : ECAffinePoint) = ⟨0x0, 0x0⟩ from rfl]
  have h1 : af_mul_loopF R1 R1.g R1.n 256
      ((⟨0x0, 0x0⟩ : ECAffinePoint))
      = af_mul_loopF R1 R1.g R1.n 224
          (af_mul_loopF R1 R1.g (R1.n >>> 224) 32
            ((⟨0x0, 0x0⟩ : ECAffinePoint))) :=
    af_mul_loopF_split R1 R1.g R1.n 224 32 _
  rw [h1, af_nG_R1_chunk1]
  have h2 : af_mul_loopF R1 R1.g R1.n 224
      ((⟨0x618466bcb739585c20c44b7fc962d8671d94867054859361a18293ffe4a720e1, 0x34587f80988db9bd798cb5da178ec512db9aec2fe35f85e0678b4e91f7c873b4⟩ : ECAffinePoint))
      = af_mul_loopF R1 R1.g R1.n 192
          (af_mul_loopF R1 R1.g (R1.n >>> 192) 32
            ((⟨0x618466bcb739585c20c44b7fc962d8671d94867054859361a18293ffe4a720e1, 0x34587f80988db9bd798cb5da178ec512db9aec2fe35f85e0678b4e91f7c873b4⟩ : ECAffinePoint))) :=
    af_mul_loopF_split R1 R1.g R1.n 192 32 _
  rw [h2, af_nG_R1_chunk2]
  have h3 : af_mul_loopF R1 R1.g R1.n 192
      ((⟨0xb9cdba7bfd6dadb74e360dbd5aa41547daa0afb084de8807cd635be8e4398ffc, 0x6422e5623a2035b7f4c596afa4bde2261698be60c7b910bdeee0554b1882c80⟩ : ECAffinePoint))
      = af_mul_loopF R1 R1.g R1.n 160
          (af_mul_loopF R1 R1.g (R1.n >>> 160) 32
            ((⟨0xb9cdba7bfd6dadb74e360dbd5aa41547daa0afb084de8807cd635be8e4398ffc, 0x6422e5623a2035b7f4c596afa4bde2261698be60c7b910bdeee0554b1882c80⟩ : ECAffinePoint))) :=
    af_mul_loopF_split R1 R1.g R1.n 160 32 _
  rw [h3, af_nG_R1_chunk3]
  have h4 : af_mul_loopF R1 R1.g R1.n 160
      ((⟨0xeb26590892332d8f2daa49906423fd6123641184e123c44519207317c49dfcf7, 0x9a5956c198b639c2dc64c68252d28cc674c2943144b78b2641d87d6e0a5f537e⟩ : ECAffinePoint))
      = af_mul_loopF R1 R1.g R1.n 128
          (af_mul_loopF R1 R1.g (R1.n >>> 128) 32
            ((⟨0xeb26590892332d8f2daa49906423fd6123641184e123c44519207317c49dfcf7, 0x9a5956c198b639c2dc64c68252d28cc674c2943144b78b2641d87d6e0a5f537e⟩ : ECAffinePoint))) :=
    af_mul_loopF_split R1 R1.g R1.n 128 32 _
  rw [h4, af_nG_R1_chunk4]
  have h5 : af_mul_loopF R1 R1.g R1.n 128
      ((⟨0x8748c7d085779cd58a8899e9edeae71b210c293b42286c1cd5da5cd76d1d1bd3, 0xed9665185905b41dab7f4487caf56539c968ff826be42303b0d2bc6a71773d50⟩ : ECAffinePoint))
      = af_mul_loopF R1 R1.g R1.n 96
          (af_mul_loopF R1 R1.g (R1.n >>> 96) 32
            ((⟨0x8748c7d085779cd58a8899e9edeae71b210c293b42286c1cd5da5cd76d1d1bd3, 0xed9665185905b41dab7f4487caf56539c968ff826be42303b0d2bc6a71773d50⟩ : ECAffinePoint))) :=
    af_mul_loopF_split R1 R1.g R1.n 96 32 _
  rw [h5, af_nG_R1_chunk5]
  have h6 : af_mul_loopF R1 R1.g R1.n 96
      ((⟨0x7fade2614d20c9cc0ad698edcef1f762c752675ae21c9f7ba24ed711e8fcba6a, 0x9f92dca5b9cca5118ca7fd381a4aa45ee30eb694113ed75aeb07d15c7fa4306f⟩ : ECAffinePoint))
      = af_mul_loopF R1 R1.g R1.n 64
          (af_mul_loopF R1 R1.g (R1.n >>> 64) 32
            ((⟨0x7fade2614d20c9cc0ad698edcef1f762c752675ae21c9f7ba24ed711e8fcba6a, 0x9f92dca5b9cca5118ca7fd381a4aa45ee30eb694113ed75aeb07d15c7fa4306f⟩ : ECAffinePoint))) :=
    af_mul_loopF_split R1 R1.g R1.n 64 32 _
  rw [h6, af_nG_R1_chunk6]
  have h7 : af_mul_loopF R1 R1.g R1.n 64
      ((⟨0xeaef3f9397aa11eae181bcd301a4f0cd2cd3a385d7f55475ec244615723ffd73, 0xa7adfad21fd25aa843cc606fde459f266a68121774d939ffba876525f3cb6ff0⟩ : ECAffinePoint))
      = af_mul_loopF R1 R1.g R1.n 32
          (af_mul_loopF R1 R1.g (R1.n >>> 32) 32
            ((⟨0xeaef3f9397aa11eae181bcd301a4f0cd2cd3a385d7f55475ec244615723ffd73, 0xa7adfad21fd25aa843cc606fde459f266a68121774d939ffba876525f3cb6ff0⟩ : ECAffinePoint))) :=
    af_mul_loopF_split R1 R1.g R1.n 32 32 _
  rw [h7, af_nG_R1_chunk7]
  rw [af_nG_R1_chunk8]

/-- Unfolding the affine `multiplyFp` to its ladder on the non-shortcut
path, without evaluating anything. -/
theorem affine_multiplyFp_eq_loop (c : SECP256) (s : ECAffinePoint)
    (k : Nat) (hy : s.y ≠ 0) (hk0 : k ≠ 0) (hk1 : k ≠ 1) :
    s.multiplyFp c k = af_mul_loopF c s k 256 ECAffinePoint.zero_point := by
  simp [ECAffinePoint.multiplyFp, hy, hk0, hk1]

/-- `n * G` through the model affine ladder is NOT the identity sentinel on
secp256k1: the final degenerate add `(n-1)*G + G` divides by zero and
returns the concrete garbage point `((-2 * G.x) mod p, G.y)`. -/
theorem affine_nG_K1 :
    ECAffinePoint.multiply K1 K1.g K1.n
      = ⟨0xc8333020c4688a754bf3ad462f1e9f1fac80649a463ae4d4c1afd48d20fccff, 0x483ada7726a3c4655da4fbfc0e1108a8fd17b448a68554199c47d08ffb10d4b8⟩ := by
  rw [affine_multiply_eqF K1_good]
  rw [affine_multiplyFp_eq_loop K1 K1.g K1.n (by decide) (by decide) (by decide)]
  rw [af_nG_K1_fast]

/-- `n * G` through the model affine ladder is NOT the identity sentinel on
secp256r1 either; the analogous garbage point is returned. -/
theorem affine_nG_R1 :
    ECAffinePoint.multiply R1 R1.g R1.n
      = ⟨0x29d05c193da77b710e86323538b77e1b11f904fea42998be16bd8d744ece7ad3, 0x4fe342e2fe1a7f9b8ee7eb4a7c0f9e162bce33576b315ececbb6406837bf51f5⟩ := by
  rw [affine_multiply_eqF R1_good]
  rw [affine_multiplyFp_eq_loop R1 R1.g R1.n (by decide) (by decide) (by decide)]
  rw [af_nG_R1_fast]

/-! Sanity anchors: the repository's own `ru256.rs` test vectors, checked
through the equivalence lemmas. -/

example : add_mod 0xBD 0x2B 0xB = 0x1 := by
  rw [add_mod_eq (by decide)]

example : sub_mod 0xacc12484 0x1ce606 0xf3fa3 = 0x5db48 := by
  rw [sub_mod_eq (by decide)]
  decide

example : sub_mod 0x1ce606 0xacc12484 0xf3fa3 = 0x9645b := by
  rw [sub_mod_eq (by decide)]
  decide

example : mul_mod 0xa167f055ff75c 0xacc457752e4ed 0xf9cd = 0xe116 := by
  rw [mul_mod_eq (by decide) (by decide)]

example : exp_mod 0x1ce606 0xacc12484 0xf3fa3 = 0x2a0fd := by
  rw [exp_mod_eqF (by decide) (by decide) (by decide)]
  decide

example : div_mod 0x1ce606 0xacc12484 0xf3fa3 = 0x61f57 := by
  rw [div_mod_eq (by decide) (by decide)]
  decide

/-! ## Helper lemmas for the claims -/

/-- An all-zero exponent never switches the `exp_mod` ladder on. -/
theorem exp_loop_zero_e {m p : Nat} :
    ∀ (f b : Nat), exp_loop m p 0 f (b, false) = (b, false) := by
  intro f
  induction f with
  | zero => intro b; rfl
  | succ f ih =>
    intro b
    rw [exp_loop_succ, Nat.zero_testBit, exp_step_ff, ih]

/-- `exp_mod a 0 p = 1` for every `a` and `p`: the `on` flag never turns
on, so the initial accumulator `1` is returned unreduced. -/
theorem exp_mod_zero_exp (a p : Nat) : exp_mod a 0 p = 1 := by
  unfold exp_mod
  rw [exp_loop_zero_e]

/-- Converting the Jacobian `(0,0,1)` sentinel to affine yields `(0,0)`. -/
theorem from_jacobian_zero {c : SECP256} (hc : GoodCurve c) :
    (JacobianPoint.zero_point).from_jacobian c = ECAffinePoint.zero_point := by
  obtain ⟨hp2, hpU, hn2, hnU⟩ := hc
  unfold JacobianPoint.from_jacobian JacobianPoint.zero_point
  simp only [div_mod_one_right hp2 hpU.le, mul_mod_zero_left,
             Nat.mod_eq_of_lt (show 1 < c.p by omega)]
  rfl

/-- The value of `s` computed by `raw_sign` before low-S normalization. -/
def raw_sign_s_pre (c : SECP256) (priv msg_hash nonce : Nat) : Nat :=
  div_mod (add_mod msg_hash
    (mul_mod (((c.g.to_jacobian).multiply c nonce).from_jacobian c).x priv c.n) c.n)
    nonce c.n

/-- The `s` component of a produced signature: the pre-value if it is at
most `n_div_2`, else `n - s` (as `sub_mod`). -/
theorem raw_sign_s (c : SECP256) (priv msg_hash nonce : Nat) :
    (raw_sign c priv msg_hash nonce).s =
      if raw_sign_s_pre c priv msg_hash nonce ≤ c.n_div_2
      then raw_sign_s_pre c priv msg_hash nonce
      else sub_mod c.n (raw_sign_s_pre c priv msg_hash nonce) c.n := by
  unfold raw_sign raw_sign_s_pre
  by_cases h : div_mod (add_mod msg_hash
      (mul_mod (((c.g.to_jacobian).multiply c nonce).from_jacobian c).x priv c.n) c.n)
      nonce c.n ≤ c.n_div_2 <;>
    by_cases hp : (((c.g.to_jacobian).multiply c nonce).from_jacobian c).y % 2 = 0 <;>
    simp [h, hp]

/-- When the nonce scalar encodes to the identity sentinel and is a
multiple of `n`, `raw_sign` returns the degenerate `(0, 0, 27)`. -/
theorem raw_sign_nonce_killed {c : SECP256} (hc : GoodCurve c)
    (priv msg_hash nonce : Nat)
    (henc : ((c.g.to_jacobian).multiply c nonce).from_jacobian c
              = ECAffinePoint.zero_point)
    (hnn : nonce % c.n = 0) :
    raw_sign c priv msg_hash nonce = { r := 0, s := 0, v := 27 } := by
  obtain ⟨hp2, hpU, hn2, hnU⟩ := hc
  unfold raw_sign
  rw [henc]
  simp only [ECAffinePoint.zero_point, mul_mod_zero_left,
             div_mod_b_zero hn2 hnU.le hnn]
  simp

/-- `multiply` by `0` returns the sentinel (both representations). -/
theorem jac_multiply_zero (c : SECP256) (s : JacobianPoint) :
    s.multiply c 0 = JacobianPoint.zero_point := by
  unfold JacobianPoint.multiply
  simp

theorem af_multiply_zero (c : SECP256) (s : ECAffinePoint) :
    s.multiply c 0 = ECAffinePoint.zero_point := by
  unfold ECAffinePoint.multiply
  simp

/-- When the on-curve check of `raw_recover` fails, the function panics
(`assert_eq` on `rhs - y^2 mod p`), i.e. the checked model returns `none`. -/
theorem raw_recoverC_assert_none (c : SECP256) (hc : GoodCurve c)
    (sig : Signature) (msg_hash : Nat) (hv : sig.v = 27 ∨ sig.v = 28)
    (hchk : sub_mod (recover_rhs c sig.r)
        (mul_mod (recover_y c sig.r sig.v) (recover_y c sig.r sig.v) c.p) c.p ≠ 0) :
    sig.raw_recoverC c msg_hash = none := by
  obtain ⟨hp2, hpU, hn2, hnU⟩ := hc
  unfold Signature.raw_recoverC
  rw [if_neg (not_not_intro hv)]
  simp only [exp_modC_some (show 0 < c.p by omega) hpU.le,
             mul_modC_some (show 0 < c.p by omega) hpU.le,
             add_modC_some (show 0 < c.p by omega) hpU.le,
             sub_modC_some (show 0 < c.p by omega) hpU.le,
             bindNA_some]
  rw [show add_mod (add_mod (exp_mod sig.r 3 c.p) (mul_mod c.a sig.r c.p) c.p) c.b c.p
        = recover_rhs c sig.r from rfl]
  by_cases hpar : (sig.v % 2 = 1)
      ≠ (exp_mod (recover_rhs c sig.r) c.sqrt_exp_num c.p % 2 = 1)
  · rw [if_pos hpar, bindNA_some]
    have hy : recover_y c sig.r sig.v
        = exp_mod (recover_rhs c sig.r) c.sqrt_exp_num c.p := by
      unfold recover_y
      rw [if_pos hpar]
    rw [hy] at hchk
    rw [if_pos hchk]
  · rw [if_neg hpar, bindNA_some]
    have hy : recover_y c sig.r sig.v
        = sub_mod c.p (exp_mod (recover_rhs c sig.r) c.sqrt_exp_num c.p) c.p := by
      unfold recover_y
      rw [if_neg hpar]
    rw [hy] at hchk
    rw [if_pos hchk]

/-! ## The claims -/

/-- C1: the sign→verify round trip is claimed to hold for every private
key in `[1, n)`, every message hash and every nonce in `[1, n)`.  It fails
on secp256k1 at privateKey = 1, nonce = 1 and msgHash = n - G.x:
`raw_sign` then computes `s = 0` (the degenerate case the code does not
reject), and `raw_verify` rejects the resulting signature.  The code
contradicts the library's intended for-all round-trip property, so this is
a bug in `raw_sign` (standard ECDSA requires rejecting `s = 0`). -/
theorem C1_sign_verify_roundtrip_fails :
    Signature.raw_verify K1
      (raw_sign K1 1
        0x8641998106234453aa5f9d6a3178f4f7b812e00b817a776265dfdd31b93e29a9 1)
      0x8641998106234453aa5f9d6a3178f4f7b812e00b817a776265dfdd31b93e29a9
      (to_pub_key K1 1) = false := by
  rw [raw_sign_eqF K1_good, to_pub_key_eqF K1_good, raw_verify_eqF K1_good]
  decide

/-- C3 (counterexample): the malformed signature `r = 0, s = 0` (both
`≡ 0 mod n`) together with the off-curve public key `(1, 1)` makes
`raw_verify` return `true`, not `false`. -/
theorem C3_counterexample :
    Signature.raw_verify K1 { r := 0, s := 0, v := 27 } 0 { x := 1, y := 1 }
      = true := by
  rw [raw_verify_eqF K1_good]
  decide

/-- C3 (amended): `raw_verify` never panics — on any curve whose prime
and order are between 3 and `2^256`, the panic-aware model returns `some`
of the boolean the plain model computes, for every signature, message
hash and public key. -/
theorem C3_verify_never_panics (c : SECP256) (hc : GoodCurve c)
    (sig : Signature) (msg_hash : Nat) (pub_key : ECAffinePoint) :
    sig.raw_verifyC c msg_hash pub_key
      = some (sig.raw_verify c msg_hash pub_key) :=
  Signature.raw_verifyC_some hc sig msg_hash pub_key

/-- C3 witness. -/
theorem C3_verify_never_panics_witness :
    Signature.raw_verifyC K1 { r := 1, s := 2, v := 27 } 3 { x := 4, y := 5 }
      = some (Signature.raw_verify K1 { r := 1, s := 2, v := 27 } 3
          { x := 4, y := 5 }) :=
  C3_verify_never_panics K1 (by decide) { r := 1, s := 2, v := 27 } 3
    { x := 4, y := 5 }

/-- C4: every signature produced by `raw_sign` satisfies `s ≤ n_div_2`;
when the initially computed `s` exceeds `n_div_2` it is replaced by
`n - s` (as computed by `sub_mod n s n`).  Stated for any curve whose
order is odd with `n = 2 * n_div_2 + 1`, which holds for `K1` and `R1`. -/
theorem C4_sign_low_s (c : SECP256) (hc : GoodCurve c)
    (hhalf : c.n = 2 * c.n_div_2 + 1) (priv msg_hash nonce : Nat) :
    (raw_sign c priv msg_hash nonce).s ≤ c.n_div_2 ∧
    (¬ raw_sign_s_pre c priv msg_hash nonce ≤ c.n_div_2 →
      (raw_sign c priv msg_hash nonce).s
        = sub_mod c.n (raw_sign_s_pre c priv msg_hash nonce) c.n) := by
  obtain ⟨hp2, hpU, hn2, hnU⟩ := hc
  have hs0 : raw_sign_s_pre c priv msg_hash nonce < c.n :=
    div_mod_lt hn2 _ _
  rw [raw_sign_s]
  by_cases hle : raw_sign_s_pre c priv msg_hash nonce ≤ c.n_div_2
  · rw [if_pos hle]
    exact ⟨hle, fun h => absurd hle h⟩
  · rw [if_neg hle]
    refine ⟨?_, fun _ => rfl⟩
    have hv : sub_mod c.n (raw_sign_s_pre c priv msg_hash nonce) c.n
        = c.n - raw_sign_s_pre c priv msg_hash nonce := by
      rw [sub_mod_eq hnU.le]
      unfold subF
      rw [Nat.mod_self, Nat.zero_add,
          Nat.mod_eq_of_lt hs0, Nat.mod_eq_of_lt (by omega)]
    rw [hv]
    omega

/-- C4 witness. -/
theorem C4_sign_low_s_witness :
    (raw_sign K1 1 2 3).s ≤ K1.n_div_2 ∧
    (¬ raw_sign_s_pre K1 1 2 3 ≤ K1.n_div_2 →
      (raw_sign K1 1 2 3).s = sub_mod K1.n (raw_sign_s_pre K1 1 2 3) K1.n) :=
  C4_sign_low_s K1 (by decide) (by decide) 1 2 3

/-- C5 (counterexample): three clauses of the claim fail. First, `1 · P = P`
fails for `P = (1, 0)` (any point with `y = 0` and `x ≠ 0`):
`ECAffinePoint::multiply` returns the identity sentinel `(0, 0)` instead of
`P`, because the `y == 0` early return fires before the `scalar == 1`
shortcut. Second, the Jacobian `1 · P` converted back to affine fails for
unreduced coordinates: for `P = (p, 1)` on secp256k1 the conversion reduces
the abscissa to `0 ≠ p`. Third, `n · G` through the affine multiply is not
the identity sentinel on secp256k1: the ladder's final add computes
`(n-1)·G + G`, a degenerate equal-abscissa case whose slope divides by
zero, so a garbage non-identity point comes out. -/
theorem C5_counterexample :
    (ECAffinePoint.multiply K1 { x := 1, y := 0 } 1
        ≠ ({ x := 1, y := 0 } : ECAffinePoint))
    ∧ (((ECAffinePoint.to_jacobian { x := K1.p, y := 1 }).multiply K1 1).from_jacobian K1
        ≠ ({ x := K1.p, y := 1 } : ECAffinePoint))
    ∧ ECAffinePoint.multiply K1 K1.g K1.n ≠ ECAffinePoint.zero_point := by
  refine ⟨by decide, ?_, ?_⟩
  · rw [JacobianPoint.multiply_eqF K1_good,
        JacobianPoint.from_jacobian_eqF K1_good]
    decide
  · rw [affine_nG_K1]
    decide

/-- C5 (amended): what the boundary laws become: `0 · P` is the identity
sentinel for every point in both representations; `1 · P = P` for every
point with `P.y ≠ 0` (affine directly; Jacobian after conversion back to
affine, for reduced coordinates — both restrictions forced by the
counterexample); `n · G` is the identity for the Jacobian multiply
converted to affine, on both supported curves; but the affine multiply at
`(G, n)` hits the degenerate `(n-1)·G + G` equal-abscissa add, divides by
zero, and returns a concrete garbage non-identity point, on both supported
curves. -/
theorem C5_boundary_laws :
    (∀ (c : SECP256) (P : ECAffinePoint), P.multiply c 0 = ECAffinePoint.zero_point)
    ∧ (∀ (c : SECP256) (P : JacobianPoint), P.multiply c 0 = JacobianPoint.zero_point)
    ∧ (∀ (c : SECP256) (P : ECAffinePoint), P.y ≠ 0 → P.multiply c 1 = P)
    ∧ (∀ (c : SECP256) (P : ECAffinePoint), GoodCurve c →
        P.x < c.p → P.y < c.p → P.y ≠ 0 →
        ((P.to_jacobian).multiply c 1).from_jacobian c = P)
    ∧ ((K1.g.to_jacobian).multiply K1 K1.n).from_jacobian K1
        = ECAffinePoint.zero_point
    ∧ ((R1.g.to_jacobian).multiply R1 R1.n).from_jacobian R1
        = ECAffinePoint.zero_point
    ∧ ECAffinePoint.multiply K1 K1.g K1.n
        = (⟨0xc8333020c4688a754bf3ad462f1e9f1fac80649a463ae4d4c1afd48d20fccff, 0x483ada7726a3c4655da4fbfc0e1108a8fd17b448a68554199c47d08ffb10d4b8⟩ : ECAffinePoint)
    ∧ ECAffinePoint.multiply R1 R1.g R1.n
        = (⟨0x29d05c193da77b710e86323538b77e1b11f904fea42998be16bd8d744ece7ad3, 0x4fe342e2fe1a7f9b8ee7eb4a7c0f9e162bce33576b315ececbb6406837bf51f5⟩ : ECAffinePoint) := by
  refine ⟨af_multiply_zero, jac_multiply_zero, ?_, ?_, nG_K1, nG_R1,
          affine_nG_K1, affine_nG_R1⟩
  · intro c P hy
    unfold ECAffinePoint.multiply
    simp [hy]
  · intro c P hc hx hy hy0
    obtain ⟨hp2, hpU, hn2, hnU⟩ := hc
    have h1 : (P.to_jacobian).multiply c 1 = P.to_jacobian := by
      unfold JacobianPoint.multiply ECAffinePoint.to_jacobian
      simp [hy0]
    rw [h1]
    unfold JacobianPoint.from_jacobian ECAffinePoint.to_jacobian
    simp only [div_mod_one_right hp2 hpU.le,
               Nat.mod_eq_of_lt (show 1 < c.p by omega),
               mul_mod_one_right (show 0 < c.p by omega) hpU.le]
    rw [Nat.mod_eq_of_lt hx, Nat.mod_eq_of_lt hy]

/-- C5 witness. -/
theorem C5_boundary_laws_witness :
    ECAffinePoint.multiply K1 { x := 5, y := 7 } 1 = { x := 5, y := 7 } ∧
    (((ECAffinePoint.to_jacobian { x := 5, y := 7 }).multiply K1 1).from_jacobian K1
      = { x := 5, y := 7 }) :=
  ⟨C5_boundary_laws.2.2.1 K1 { x := 5, y := 7 } (by decide),
   C5_boundary_laws.2.2.2.1 K1 { x := 5, y := 7 } (by decide) (by decide)
     (by decide) (by decide)⟩

/-- `recover_rhs` agrees with its fast form. -/
theorem recover_rhs_eqF {c : SECP256} (hc : GoodCurve c) (r : Nat) :
    recover_rhs c r = recover_rhsF c r := by
  obtain ⟨hp2, hpU, hn2, hnU⟩ := hc
  unfold recover_rhs recover_rhsF
  simp only [add_mod_eqF hpU.le, mul_mod_eqF (show 0 < c.p by omega) hpU.le,
             exp_mod_eqF (show 1 < c.p by omega) hpU.le three_lt_U256size]

/-- `recover_y` agrees with its fast form. -/
theorem recover_y_eqF {c : SECP256} (hc : GoodCurve c)
    (hs : c.sqrt_exp_num < U256size) (r v : Nat) :
    recover_y c r v = recover_yF c r v := by
  obtain ⟨hp2, hpU, hn2, hnU⟩ := hc
  unfold recover_y recover_yF
  rw [recover_rhs_eqF ⟨hp2, hpU, hn2, hnU⟩]
  simp only [exp_mod_eqF (show 1 < c.p by omega) hpU.le hs,
             sub_mod_eq hpU.le]

/-- C6: when the reconstructed `y` fails the on-curve check
`rhs - y^2 ≡ 0 (mod p)`, `raw_recover` does not return a recoverable
failure: it panics (the checked model yields `none`). -/
theorem C6_recover_invalid_point_panics (c : SECP256) (hc : GoodCurve c)
    (sig : Signature) (msg_hash : Nat) (hv : sig.v = 27 ∨ sig.v = 28)
    (hchk : sub_mod (recover_rhs c sig.r)
        (mul_mod (recover_y c sig.r sig.v) (recover_y c sig.r sig.v) c.p) c.p ≠ 0) :
    sig.raw_recoverC c msg_hash = none :=
  raw_recoverC_assert_none c hc sig msg_hash hv hchk

/-- C6 (counterexample to the claim as stated): on secp256k1 the
signature `(r, s, v) = (5, 1, 0x1b)` has `r^3 + 7 = 132`, a quadratic
non-residue, so no curve point has abscissa 5; `raw_recover` panics
(`none`) instead of returning a recoverable "recovery failed" result. -/
theorem C6_counterexample :
    Signature.raw_recoverC K1 { r := 5, s := 1, v := 27 } 0 = none := by
  apply raw_recoverC_assert_none K1 K1_good _ 0 (Or.inl rfl)
  rw [recover_rhs_eqF K1_good, recover_y_eqF K1_good (by decide)]
  rw [mul_mod_eqF (show 0 < K1.p by decide) (show K1.p ≤ U256size by decide)]
  decide

/-- C6 witness (the other recovery id). -/
theorem C6_recover_invalid_point_panics_witness :
    Signature.raw_recoverC K1 { r := 5, s := 1, v := 28 } 0 = none := by
  apply C6_recover_invalid_point_panics K1 (by decide) _ 0 (Or.inr rfl)
  rw [recover_rhs_eqF K1_good, recover_y_eqF K1_good (by decide)]
  rw [mul_mod_eqF (show 0 < K1.p by decide) (show K1.p ≤ U256size by decide)]
  decide

/-- One-sided operand reduction for `mul_mod`. -/
theorem mul_mod_reduce_left (a b m : Nat) : mul_mod a b m = mul_mod (a % m) b m := by
  unfold mul_mod
  rw [Nat.mod_mod_of_dvd] <;> simp

theorem mul_mod_reduce_right (a b m : Nat) : mul_mod a b m = mul_mod a (b % m) m := by
  unfold mul_mod
  rw [Nat.mod_mod_of_dvd] <;> simp

theorem mul_mod_reduce (a b m : Nat) : mul_mod a b m = mul_mod (a % m) (b % m) m :=
  (mul_mod_reduce_left a b m).trans (mul_mod_reduce_right (a % m) b m)

theorem sub_mod_reduce (a b m : Nat) : sub_mod a b m = sub_mod (a % m) (b % m) m := by
  unfold sub_mod
  rw [Nat.mod_mod_of_dvd, Nat.mod_mod_of_dvd] <;> simp

theorem exp_mod_reduce (a e m : Nat) : exp_mod a e m = exp_mod (a % m) e m := by
  unfold exp_mod
  rw [Nat.mod_mod_of_dvd] <;> simp

theorem div_mod_reduce (a b m : Nat) : div_mod a b m = div_mod (a % m) (b % m) m := by
  unfold div_mod
  rw [mul_mod_reduce_left, exp_mod_reduce]

/-- C7 (counterexample to the claim as stated): `exp_mod 0 0 1 = 1`, which
is not fully reduced below the modulus `m = 1 > 0`: with a zero exponent
the ladder's `on` flag never fires and the initial accumulator `1` is
returned without a final reduction. -/
theorem C7_counterexample : ¬ (exp_mod 0 0 1 < 1) := by
  rw [exp_mod_zero_exp]
  omega

/-- C7 (amended): each operation reduces its ring operands modulo `m`
before combining them (`exp_mod` reduces only the base; the exponent is
used as given), and the results are fully reduced below `m` — for
`add_mod`, `sub_mod`, `mul_mod` whenever `m > 0` (including the case
where `a + b` overflows 256 bits, where `add_mod` still computes
`(a + b) % m` for any 256-bit modulus), for `exp_mod` whenever `m > 1`,
and for `div_mod` whenever `m > 2` (the Rust `div_mod` panics for
`m ≤ 2`, and `exp_mod` with modulus `1` and exponent `0` returns `1`). -/
theorem C7_operands_reduced :
    (∀ a b m : Nat,
        add_mod a b m = add_mod (a % m) (b % m) m
      ∧ sub_mod a b m = sub_mod (a % m) (b % m) m
      ∧ mul_mod a b m = mul_mod (a % m) (b % m) m
      ∧ exp_mod a b m = exp_mod (a % m) b m
      ∧ div_mod a b m = div_mod (a % m) (b % m) m)
  ∧ (∀ a b m : Nat, 0 < m →
        add_mod a b m < m ∧ sub_mod a b m < m ∧ mul_mod a b m < m)
  ∧ (∀ a b m : Nat, 1 < m → exp_mod a b m < m)
  ∧ (∀ a b m : Nat, 2 < m → div_mod a b m < m)
  ∧ (∀ a b m : Nat, m ≤ U256size → add_mod a b m = (a + b) % m) := by
  refine ⟨?_, ?_, ?_, ?_, ?_⟩
  · intro a b m
    exact ⟨add_mod_reduce a b m, sub_mod_reduce a b m, mul_mod_reduce a b m,
           exp_mod_reduce a b m, div_mod_reduce a b m⟩
  · intro a b m hm
    exact ⟨add_mod_lt hm a b, sub_mod_lt hm a b, mul_mod_lt hm a b⟩
  · intro a b m hm
    exact exp_mod_lt hm a b
  · intro a b m hm
    exact div_mod_lt hm a b
  · intro a b m hm
    exact add_mod_eq hm a b

/-- C7 witness. -/
theorem C7_operands_reduced_witness :
    add_mod 1000 999 7 < 7 ∧ exp_mod 1000 999 7 < 7 ∧ div_mod 1000 999 7 < 7
    ∧ add_mod 1000 999 7 = (1000 + 999) % 7 :=
  ⟨(C7_operands_reduced.2.1 1000 999 7 (by decide)).1,
   C7_operands_reduced.2.2.1 1000 999 7 (by decide),
   C7_operands_reduced.2.2.2.1 1000 999 7 (by decide),
   C7_operands_reduced.2.2.2.2 1000 999 7 (by decide)⟩

/-- C8: dividing by the zero field element does not signal an error.
For every modulus `2 < p < 2^256` the checked `div_mod a 0 p` returns
`some 0` (because `exp_mod 0 (p-2) p = 0`, the Fermat "inverse" of `0`
is `0`); in particular the affine add of the secp256k1 generator `G` and
its negation `-G = (G.x, p - G.y)` reaches this division and returns a
well-defined but wrong (non-identity) point instead of failing. -/
theorem C8_zero_division_silent :
    (∀ a p : Nat, 2 < p → p < U256size → div_modC a 0 p = some 0)
  ∧ ECAffinePoint.addC K1 K1.g
      { x := K1.g.x,
        y := 0xb7c52588d95c3b9aa25b0403f1eef75702e84bb7597aabe663b82f6f04ef2777 }
      = some { x := 0x0c8333020c4688a754bf3ad462f1e9f1fac80649a463ae4d4c1afd48d20fccff,
               y := 0xb7c52588d95c3b9aa25b0403f1eef75702e84bb7597aabe663b82f6f04ef2777 }
  ∧ ({ x := 0x0c8333020c4688a754bf3ad462f1e9f1fac80649a463ae4d4c1afd48d20fccff,
       y := 0xb7c52588d95c3b9aa25b0403f1eef75702e84bb7597aabe663b82f6f04ef2777 }
      : ECAffinePoint) ≠ ECAffinePoint.zero_point := by
  refine ⟨?_, ?_, by decide⟩
  · intro a p hp2 hpU
    rw [div_modC_some hp2 hpU.le, div_mod_b_zero hp2 hpU.le (Nat.zero_mod p) a]
  · have hne : (K1.g).y ≠ (ECAffinePoint.mk K1.g.x
        0xb7c52588d95c3b9aa25b0403f1eef75702e84bb7597aabe663b82f6f04ef2777).y := by
      decide
    rw [affine_addC_some K1_good hne, affine_add_eqF K1_good]
    decide

/-- C8 witness. -/
theorem C8_zero_division_silent_witness : div_modC 9 0 11 = some 0 :=
  C8_zero_division_silent.1 9 11 (by decide) (by decide)

/-- C9: the `assert!(self.y != other.y)` of `ECAffinePoint::add` runs
before the identity special-casing, so every call on two points with
equal ordinates panics (`none` in the checked model) — including
`add(identity, identity)` and `add(P, identity)` for any `P` with
`P.y = 0`. -/
theorem C9_affine_add_equal_y_panics :
    (∀ (c : SECP256) (s o : ECAffinePoint), s.y = o.y → s.addC c o = none)
  ∧ ECAffinePoint.addC K1 ECAffinePoint.zero_point ECAffinePoint.zero_point = none
  ∧ (∀ (c : SECP256) (s : ECAffinePoint), s.y = 0 →
      s.addC c ECAffinePoint.zero_point = none) := by
  have h : ∀ (c : SECP256) (s o : ECAffinePoint), s.y = o.y → s.addC c o = none := by
    intro c s o hyy
    unfold ECAffinePoint.addC
    rw [if_pos hyy]
  exact ⟨h, h K1 _ _ rfl, fun c s hs => h c s ECAffinePoint.zero_point hs⟩

/-- C9 witness. -/
theorem C9_affine_add_equal_y_panics_witness :
    ECAffinePoint.addC K1 { x := 1, y := 2 } { x := 3, y := 2 } = none :=
  C9_affine_add_equal_y_panics.1 K1 { x := 1, y := 2 } { x := 3, y := 2 } rfl

/-- C10: signing with any nonce that is `≡ 0 (mod n)` (as a 256-bit
value: `0` or `n` itself) neither fails nor panics and deterministically
returns the degenerate signature `r = 0, s = 0, v = 0x1b = 27`, on both
supported curves: the nonce scalar multiplies `G` to the `(0, 0)`
sentinel and division by the zero nonce yields `0`. -/
theorem C10_zero_nonce_sign (priv msg_hash nonce : Nat) (hlt : nonce < U256size) :
    (nonce % K1.n = 0 →
       raw_signC K1 priv msg_hash nonce = some { r := 0, s := 0, v := 27 } ∧
       raw_sign K1 priv msg_hash nonce = { r := 0, s := 0, v := 27 }) ∧
    (nonce % R1.n = 0 →
       raw_signC R1 priv msg_hash nonce = some { r := 0, s := 0, v := 27 } ∧
       raw_sign R1 priv msg_hash nonce = { r := 0, s := 0, v := 27 }) := by
  have hU : U256size
      = 115792089237316195423570985008687907853269984665640564039457584007913129639936 := by
    norm_num [U256size]
  rw [hU] at hlt
  constructor
  · intro hmod
    have hn : K1.n
        = 115792089237316195423570985008687907852837564279074904382605163141518161494337 :=
      rfl
    rw [hn] at hmod
    have hcase : nonce = 0 ∨ nonce
        = 115792089237316195423570985008687907852837564279074904382605163141518161494337 := by
      omega
    have hval : raw_sign K1 priv msg_hash nonce = { r := 0, s := 0, v := 27 } := by
      rcases hcase with h0 | hN
      · subst h0
        have henc : ((K1.g.to_jacobian).multiply K1 0).from_jacobian K1
            = ECAffinePoint.zero_point := by
          rw [jac_multiply_zero]
          exact from_jacobian_zero K1_good
        exact raw_sign_nonce_killed K1_good priv msg_hash 0 henc (Nat.zero_mod _)
      · subst hN
        exact raw_sign_nonce_killed K1_good priv msg_hash _ nG_K1 (by rw [← hn, Nat.mod_self])
    exact ⟨by rw [raw_signC_some K1_good, hval], hval⟩
  · intro hmod
    have hn : R1.n
        = 115792089210356248762697446949407573529996955224135760342422259061068512044369 :=
      rfl
    rw [hn] at hmod
    have hcase : nonce = 0 ∨ nonce
        = 115792089210356248762697446949407573529996955224135760342422259061068512044369 := by
      omega
    have hval : raw_sign R1 priv msg_hash nonce = { r := 0, s := 0, v := 27 } := by
      rcases hcase with h0 | hN
      · subst h0
        have henc : ((R1.g.to_jacobian).multiply R1 0).from_jacobian R1
            = ECAffinePoint.zero_point := by
          rw [jac_multiply_zero]
          exact from_jacobian_zero R1_good
        exact raw_sign_nonce_killed R1_good priv msg_hash 0 henc (Nat.zero_mod _)
      · subst hN
        exact raw_sign_nonce_killed R1_good priv msg_hash _ nG_R1 (by rw [← hn, Nat.mod_self])
    exact ⟨by rw [raw_signC_some R1_good, hval], hval⟩

/-- C10 witness. -/
theorem C10_zero_nonce_sign_witness :
    raw_signC K1 3 5 0 = some { r := 0, s := 0, v := 27 } ∧
    raw_sign K1 3 5 0 = { r := 0, s := 0, v := 27 } :=
  (C10_zero_nonce_sign 3 5 0 (by decide)).1 (by decide)

/-! The `ru256.rs` addition test vector that exercises the 256-bit
overflow correction path. -/
example : add_mod
    0xFFFFFFFFFFFFFFFFFFFFFFFFFFFFFFFFFFFFFFFFFFFFFFFFFFFFFFFEFFFFFC2E
    0xFFFFFFFFFFFFFFFFFFFFFFFFFFFFFFFFFFFFFFFFFFFFFFFFFFFFFFFEFFFFFC2E
    0xFFFFFFFFFFFFFFFFFFFFFFFFFFFFFFFFFFFFFFFFFFFFFFFFFFFFFFFEFFFFFC2F
    = 0xfffffffffffffffffffffffffffffffffffffffffffffffffffffffefffffc2d := by
  rw [add_mod_eq (by decide)]
